import Mathlib

/-!
Shallow embedding of the recipe-price-runner-modifier repository
(src/recipe-price-runner-modifier.ts, src/server.ts, src/mock-data.ts).

Modelling conventions:
* JavaScript numbers are modelled as exact rationals (`ℚ`); `Math.round`,
  `Math.ceil`, `Math.min`, `Math.max` become their exact counterparts.
* JavaScript strings are Lean `String`s; `toLowerCase`, `trim`,
  `normalize('NFD')` + combining-mark stripping, `includes`, `split(/\s+/)`,
  `startsWith`/`endsWith` are modelled character-by-character below.
* `null`/`undefined`-able values become `Option`; JS truthiness (`x || d`)
  is modelled explicitly (0 and "" count as falsy).
* Module-level mutable state (the run lock, the equivalence cache) is
  threaded explicitly as arguments/results.
-/

/-- ASCII/Latin-1 lowercasing, as JavaScript `toLowerCase` acts on the
characters appearing in this repository (A-Z and the precomposed accented
Latin-1 uppercase letters). -/
def jsToLower (c : Char) : Char :=
  if 'A' ≤ c ∧ c ≤ 'Z' then Char.ofNat (c.toNat + 32)
  else if 0xC0 ≤ c.toNat ∧ c.toNat ≤ 0xDE ∧ c.toNat ≠ 0xD7 then Char.ofNat (c.toNat + 32)
  else c

/-- Decomposition-and-strip for the precomposed accented characters used in
the repository: `normalize('NFD')` splits them into a base letter plus a
combining mark in U+0300-U+036F, which `normalizeText` then removes, leaving
the base letter. Ligatures such as `œ` have no NFD decomposition and are
left unchanged. -/
def stripDiacritic (c : Char) : Char :=
  if c = 'à' ∨ c = 'â' ∨ c = 'ä' ∨ c = 'á' ∨ c = 'ã' ∨ c = 'å' then 'a'
  else if c = 'é' ∨ c = 'è' ∨ c = 'ê' ∨ c = 'ë' then 'e'
  else if c = 'î' ∨ c = 'ï' ∨ c = 'í' ∨ c = 'ì' then 'i'
  else if c = 'ô' ∨ c = 'ö' ∨ c = 'ó' ∨ c = 'ò' ∨ c = 'õ' then 'o'
  else if c = 'ù' ∨ c = 'û' ∨ c = 'ü' ∨ c = 'ú' then 'u'
  else if c = 'ç' then 'c'
  else if c = 'ñ' then 'n'
  else if c = 'ý' ∨ c = 'ÿ' then 'y'
  else c

/-- Combining diacritical mark, the range `[̀-ͯ]` removed by
`normalizeText`. -/
def isCombiningMark (c : Char) : Bool :=
  0x300 ≤ c.toNat && c.toNat ≤ 0x36F

/-- `normalizeText` from the source: lowercase, NFD-normalize and strip the
combining marks (i.e. strip accents). -/
def normalizeText (s : String) : String :=
  ⟨(((s.data.map jsToLower).map stripDiacritic).filter (fun c => !isCombiningMark c))⟩

/-- JavaScript `toLowerCase` on a whole string. -/
def jsToLowerStr (s : String) : String := ⟨s.data.map jsToLower⟩

/-- Whitespace for the purposes of JS `trim` and `split(/\s+/)`. -/
def isWsChar (c : Char) : Bool :=
  c = ' ' || c = '\t' || c = '\n' || c = '\r'

/-- JavaScript `trim`. -/
def jsTrim (s : String) : String :=
  ⟨(((s.data.dropWhile isWsChar).reverse.dropWhile isWsChar).reverse)⟩

/-- JavaScript `unit.toLowerCase().trim()`. -/
def toLowerTrim (s : String) : String := jsTrim (jsToLowerStr s)

/-- List-of-characters prefix test (JS `startsWith`). -/
def prefixCL : List Char → List Char → Bool
  | [], _ => true
  | _ :: _, [] => false
  | a :: xs, b :: ys => a == b && prefixCL xs ys

/-- JS `t.includes(sub)`: substring containment. -/
def containsSub (t sub : String) : Bool :=
  (List.range (t.data.length + 1)).any (fun i => prefixCL sub.data (t.data.drop i))

/-- JS `t.startsWith(w)`. -/
def startsWithStr (t w : String) : Bool := prefixCL w.data t.data

/-- JS `t.endsWith(w)`. -/
def endsWithStr (t w : String) : Bool := prefixCL w.data.reverse t.data.reverse

/-- Split a string on runs of whitespace (JS `split(/\s+/)`), dropping empty
pieces (the source always filters the pieces by a minimum length ≥ 2, so the
possible leading empty piece of the JS result never matters). -/
def splitWsAux : List Char → List Char → List String
  | [], acc => if acc.isEmpty then [] else [⟨acc.reverse⟩]
  | c :: cs, acc =>
    if isWsChar c then
      if acc.isEmpty then splitWsAux cs [] else ⟨acc.reverse⟩ :: splitWsAux cs []
    else splitWsAux cs (c :: acc)

def splitWs (s : String) : List String := splitWsAux s.data []

/-- Word characters for the word-boundary regex `(^|\s|[^a-z])w($|\s|[^a-z])`
built with the `i` flag: a boundary position is the string edge or any
character outside a-z / A-Z. -/
def isRegexWordChar (c : Char) : Bool :=
  ('a' ≤ c && c ≤ 'z') || ('A' ≤ c && c ≤ 'Z')

def boundaryOk : Option Char → Bool
  | none => true
  | some c => !isRegexWordChar c

/-- `matchesWholeWord` from the source: whole-word occurrence of `word`
inside `text`, via the regex `(^|\s|[^a-z])word($|\s|[^a-z])` with flag `i`
(the `\s` alternative is subsumed by `[^a-z]`). -/
def matchesWholeWord (text word : String) : Bool :=
  (List.range (text.data.length + 1)).any (fun i =>
    prefixCL word.data (text.data.drop i) &&
    (if i = 0 then true else boundaryOk (text.data.get? (i - 1))) &&
    boundaryOk (text.data.get? (i + word.data.length)))

/-- First-match lookup in an association list, modelling a JS object-literal
property lookup (`TABLE[key]`); object literals in the source have no
duplicate keys, so first match equals the JS semantics. -/
def listLookup {α : Type} : List (String × α) → String → Option α
  | [], _ => none
  | (k, v) :: rest, key => if k == key then some v else listLookup rest key

/-- Last-match lookup, modelling lookup in a JS `Map` built by repeated
`set` calls (a later `set` for the same key overwrites the earlier one). -/
def mapLookup {α : Type} (l : List (String × α)) (key : String) : Option α :=
  l.foldl (fun acc kv => if kv.1 == key then some kv.2 else acc) none

/-- JS `Math.max` on two numbers, written with an executable comparison so
that proofs can evaluate it. -/
def jsMax (a b : ℚ) : ℚ := if a ≤ b then b else a

/-- JS `Math.min`. -/
def jsMin (a b : ℚ) : ℚ := if a ≤ b then a else b

/-- JS `Math.round` (half toward +∞) applied to `x*100`, divided by 100:
the `Math.round(cost * 100) / 100` idiom used throughout the source. -/
def roundCents (x : ℚ) : ℚ := ((⌊x * 100 + 1/2⌋ : ℤ) : ℚ) / 100

/-- The `Math.max(0.01, Math.round(c*100)/100)` idiom. -/
def clampCents (x : ℚ) : ℚ := jsMax (1/100) (roundCents x)

/-- A value representing a whole number of cents. -/
def isCents (x : ℚ) : Prop := ∃ n : ℤ, x = (n : ℚ) / 100

/-! Static heuristic tables, transcribed in order from
src/recipe-price-runner-modifier.ts. Apostrophes in the French keys are
written with the `\x27` escape. -/

/-- `categoryEstimates`. -/
def categoryEstimates : List (String × ℚ) := [
  ("Viandes", 8.99),
  ("Poissons", 12.99),
  ("Produits laitiers", 4.99),
  ("Fruits et légumes", 2.99),
  ("Boulangerie", 3.49),
  ("Épicerie", 3.99),
  ("Surgelés", 5.99)]

/-- `UNIT_TO_ML`: recipe-unit → millilitre multiplier. -/
def UNIT_TO_ML : List (String × ℚ) := [
  ("c. à soupe", 15), ("c.s.", 15), ("tbsp", 15), ("cuillère à soupe", 15),
  ("cuilleres a soupe", 15),
  ("c. à thé", 5), ("c.t.", 5), ("tsp", 5), ("cuillère à thé", 5),
  ("cuilleres a the", 5),
  ("tasse", 250), ("tasses", 250), ("cup", 250), ("cups", 250),
  ("ml", 1), ("millilitre", 1), ("millilitres", 1),
  ("cl", 10), ("centilitre", 10), ("centilitres", 10),
  ("l", 1000), ("litre", 1000), ("litres", 1000)]

/-- `UNIT_TO_G`: recipe-unit → gram multiplier. -/
def UNIT_TO_G : List (String × ℚ) := [
  ("g", 1), ("gramme", 1), ("grammes", 1),
  ("kg", 1000), ("kilogramme", 1000), ("kilogrammes", 1000),
  ("lb", 454), ("lbs", 454), ("livre", 454), ("livres", 454),
  ("oz", 28.35), ("once", 28.35), ("onces", 28.35),
  ("pincée", 0.5), ("pincee", 0.5), ("pinch", 0.5)]

inductive SizeUnit | ml | g
deriving DecidableEq, Repr

structure StdSize where
  size : ℚ
  unit : SizeUnit
deriving DecidableEq, Repr

/-- Size-table entry helpers. -/
def szMl (k : String) (n : ℚ) : String × StdSize := (k, StdSize.mk n SizeUnit.ml)

def szG (k : String) (n : ℚ) : String × StdSize := (k, StdSize.mk n SizeUnit.g)

def PRODUCT_STANDARD_SIZES_0 : List (String × StdSize) := [
  szMl "huile" 750,
  szMl "huile d\x27olive" 750,
  szMl "huile olive" 750,
  szMl "huile végétale" 946,
  szMl "huile vegetale" 946,
  szMl "huile de canola" 946,
  szMl "vinaigre" 500,
  szMl "vinaigre balsamique" 250,
  szMl "sauce soya" 450,
  szMl "sauce soja" 450,
  szMl "sirop d\x27érable" 540,
  szMl "sirop erable" 540,
  szMl "miel" 500,
  szMl "lait" 2000,
  szMl "crème" 473,
  szMl "creme" 473,
  szMl "bouillon" 900,
  szMl "moutarde" 250,
  szMl "moutarde de dijon" 250,
  szMl "mayonnaise" 450,
  szMl "ketchup" 750,
  szMl "sriracha" 480,
  szMl "sauce piquante" 150,
  szMl "tabasco" 60,
  szMl "sambal" 200]

def PRODUCT_STANDARD_SIZES_1 : List (String × StdSize) := [
  szMl "pâte de tomate" 156,
  szMl "pate de tomate" 156,
  szMl "pâte de tomates" 156,
  szMl "pate de tomates" 156,
  szMl "vin" 750,
  szMl "vin rouge" 750,
  szMl "vin blanc" 750,
  szMl "bouillon de boeuf" 900,
  szMl "bouillon de poulet" 900,
  szMl "bouillon de légumes" 900,
  szMl "bouillon de legumes" 900,
  szG "paprika" 50,
  szG "paprika fumé" 50,
  szG "paprika fume" 50,
  szG "cumin" 50,
  szG "origan" 25,
  szG "oregano" 25,
  szG "thym" 25,
  szG "thym frais" 25,
  szG "feuille de laurier" 10,
  szG "feuilles de laurier" 10,
  szG "laurier" 10,
  szMl "basilic" 250,
  szMl "basilic frais" 250,
  szMl "basilic haché" 250]

def PRODUCT_STANDARD_SIZES_2 : List (String × StdSize) := [
  szMl "romarin" 250,
  szMl "romarin frais" 250,
  szMl "persil" 250,
  szMl "persil frais" 250,
  szMl "persil haché" 250,
  szMl "coriandre" 250,
  szMl "coriandre fraîche" 250,
  szMl "coriandre fraiche" 250,
  szMl "coriandre hachée" 250,
  szMl "coriandre hachee" 250,
  szMl "menthe" 250,
  szMl "menthe fraîche" 250,
  szMl "menthe fraiche" 250,
  szMl "ciboulette" 250,
  szMl "aneth" 250,
  szG "cannelle" 50,
  szG "muscade" 30,
  szG "poivre" 50,
  szG "sel" 500,
  szG "ail en poudre" 50,
  szG "poudre d\x27ail" 50,
  szG "oignon en poudre" 50,
  szG "poudre d\x27oignon" 50,
  szG "herbes de provence" 30,
  szG "épices italiennes" 30]

def PRODUCT_STANDARD_SIZES_3 : List (String × StdSize) := [
  szG "epices italiennes" 30,
  szG "cari" 50,
  szG "curry" 50,
  szG "gingembre moulu" 40,
  szG "piment" 40,
  szG "cayenne" 40,
  szG "farine" 2500,
  szG "sucre" 2000,
  szG "cassonade" 1000,
  szG "riz" 900,
  szG "pâtes" 450,
  szG "pates" 450,
  szG "spaghetti" 450,
  szG "quinoa" 400,
  szG "avoine" 1000,
  szG "chapelure" 425,
  szG "beurre" 454,
  szG "fromage" 400,
  szG "parmesan" 200,
  szG "yogourt" 650,
  szMl "crème fraîche" 250,
  szMl "creme fraiche" 250,
  szMl "crème sure" 500,
  szMl "creme sure" 500]

/-- `PRODUCT_STANDARD_SIZES`: standard retail package sizes (in source
order; split into chunks only to keep elaboration fast). -/
def PRODUCT_STANDARD_SIZES : List (String × StdSize) :=
  PRODUCT_STANDARD_SIZES_0 ++ PRODUCT_STANDARD_SIZES_1 ++ PRODUCT_STANDARD_SIZES_2 ++ PRODUCT_STANDARD_SIZES_3

/-- `UNIT_BASED_INGREDIENTS`: ingredients bought by the piece. -/
def UNIT_BASED_INGREDIENTS : List String := [
  "oeuf", "oeufs", "oeuf", "œuf", "œufs",
  "oignon", "oignons",
  "oignon vert", "oignons verts", "échalote verte", "echalote verte",
  "ail", "gousse d\x27ail", "gousses d\x27ail",
  "citron", "citrons", "lime", "limes", "orange", "oranges",
  "pomme", "pommes", "banane", "bananes", "avocat", "avocats",
  "tomate", "tomates", "poivron", "poivrons", "concombre", "concombres",
  "carotte", "carottes",
  "pomme de terre", "pommes de terre", "patate", "patates",
  "poulet", "poitrine de poulet", "cuisse de poulet",
  "pain", "baguette",
  "piment", "piment oiseau", "jalapeño", "jalapeno"]

/-- `UNIT_WEIGHT_IN_GRAMS`: grams per single item. -/
def UNIT_WEIGHT_IN_GRAMS : List (String × ℚ) := [
  ("ail", 5), ("gousse d\x27ail", 5), ("gousses d\x27ail", 5),
  ("oignon", 150), ("oignons", 150),
  ("oeuf", 50), ("oeufs", 50),
  ("citron", 100), ("citrons", 100),
  ("lime", 70), ("limes", 70),
  ("orange", 180), ("oranges", 180),
  ("pomme", 180), ("pommes", 180),
  ("banane", 120), ("bananes", 120),
  ("avocat", 200), ("avocats", 200),
  ("tomate", 150), ("tomates", 150),
  ("poivron", 150), ("poivrons", 150),
  ("concombre", 300), ("concombres", 300),
  ("carotte", 80), ("carottes", 80),
  ("pomme de terre", 200), ("pommes de terre", 200),
  ("patate", 200), ("patates", 200),
  ("thym frais", 10), ("thym", 10),
  ("feuille de laurier", 0.3), ("feuilles de laurier", 0.3), ("laurier", 0.3),
  ("basilic frais", 15),
  ("romarin frais", 10), ("romarin", 10),
  ("persil frais", 15), ("persil", 15),
  ("coriandre fraîche", 15), ("coriandre fraiche", 15), ("coriandre", 15),
  ("menthe fraîche", 10), ("menthe fraiche", 10), ("menthe", 10),
  ("oignon vert", 15), ("oignons verts", 15),
  ("échalote verte", 15), ("echalote verte", 15),
  ("piment oiseau", 5), ("piment", 10),
  ("jalapeño", 15), ("jalapeno", 15),
  ("gingembre", 10), ("gingembre frais", 10),
  ("échalote", 30), ("echalote", 30),
  ("brocoli", 300), ("laitue", 400), ("chou", 500), ("chou-fleur", 500),
  ("courgette", 200), ("courgettes", 200),
  ("céleri", 40), ("celeri", 40),
  ("champignon", 20), ("champignons", 20)]

/-- `INGREDIENT_KEYWORDS`: keyword-expansion table for the matcher. -/
def INGREDIENT_KEYWORDS : List (String × List String) := [
  ("poulet", ["poulet", "volaille", "poitrine poulet", "cuisse poulet", "aile poulet"]),
  ("boeuf", ["boeuf", "bifteck", "steak", "viande hachee", "haché"]),
  ("porc", ["porc", "cotelette", "longe", "filet porc", "bacon", "jambon"]),
  ("poisson", ["poisson", "saumon", "tilapia", "truite", "morue", "sole", "thon"]),
  ("oeuf", ["oeuf", "oeufs"]),
  ("lait", ["lait", "lactose"]),
  ("fromage", ["fromage", "cheddar", "mozzarella", "parmesan", "brie", "feta"]),
  ("yogourt", ["yogourt", "yaourt", "grec", "iogo"]),
  ("pain", ["pain", "baguette", "croute", "tranche"]),
  ("pates", ["pate", "pates", "spaghetti", "macaroni", "penne", "fusilli", "catelli"]),
  ("riz", ["riz", "basmati", "jasmin"]),
  ("tomate", ["tomate", "tomates"]),
  ("oignon", ["oignon", "oignons", "echalote"]),
  ("ail", ["ail", "gousse"]),
  ("carotte", ["carotte", "carottes"]),
  ("pomme de terre", ["pomme terre", "patate", "patates", "pommes terre"]),
  ("beurre", ["beurre", "margarine"]),
  ("huile", ["huile", "olive", "canola", "vegetale"]),
  ("sucre", ["sucre", "cassonade"]),
  ("farine", ["farine", "ble"]),
  ("legumes", ["legume", "legumes", "brocoli", "epinard", "courgette", "poivron"]),
  ("fruits", ["pomme", "banane", "orange", "fraise", "bleuet", "framboise"])]

/-- `EXCLUDED_PRODUCT_KEYWORDS`: non-food denylist. -/
def EXCLUDED_PRODUCT_KEYWORDS : List String := [
  "pampers", "huggies", "couche", "couches", "diaper", "diapers",
  "tablet", "tablette", "samsung", "apple", "iphone", "ipad", "galaxy",
  "television", "televiseur", "tele", "ecran", "monitor",
  "matelas", "meuble", "meubles", "furniture",
  "velo", "vélo", "bicycle", "exercice", "fitness",
  "pelle", "neige", "outils", "tools",
  "shampoo", "shampooing", "savon", "soap", "detergent", "nettoyant",
  "papier toilette", "toilet paper", "mouchoir", "tissue",
  "vetement", "vêtement", "clothing", "shirt", "pantalon",
  "matcha", "supplement", "vitamine", "vitamin",
  "fonctionnel", "functional", "adaptogene", "adaptogen"]

/-- `GLOBAL_MAX_INGREDIENT_PRICE`: default price cap. -/
def GLOBAL_MAX_INGREDIENT_PRICE : ℚ := 50

/-- `GLOBAL_MAX_INGREDIENT_COST`: per-ingredient computed-cost ceiling. -/
def GLOBAL_MAX_INGREDIENT_COST : ℚ := 60

/-- `INGREDIENT_PRICE_CAPS`: per-ingredient price caps. -/
def INGREDIENT_PRICE_CAPS : List (String × ℚ) := [
  ("eau", 3), ("water", 3),
  ("sel", 4), ("salt", 4),
  ("poivre", 8), ("pepper", 8),
  ("sucre", 6), ("sugar", 6),
  ("miel", 12), ("honey", 12), ("sirop", 12), ("syrup", 12),
  ("sauce soya", 6), ("soy sauce", 6), ("sauce soja", 6),
  ("sauce poisson", 6), ("fish sauce", 6),
  ("vinaigre", 6), ("vinegar", 6),
  ("huile", 12), ("oil", 12),
  ("moutarde", 5), ("mustard", 5),
  ("ketchup", 5),
  ("mayonnaise", 6), ("mayo", 6),
  ("sambal", 6), ("sriracha", 6),
  ("ail", 5), ("garlic", 5),
  ("oignon", 4), ("onion", 4),
  ("echalote", 4), ("shallot", 4),
  ("oignons verts", 4), ("green onion", 4),
  ("gingembre", 5), ("ginger", 5),
  ("coriandre", 4), ("cilantro", 4),
  ("persil", 4), ("parsley", 4),
  ("basilic", 4), ("basil", 4),
  ("thym", 4), ("thyme", 4),
  ("romarin", 4), ("rosemary", 4),
  ("menthe", 4), ("mint", 4),
  ("laurier", 4), ("bay", 4),
  ("piment", 4), ("chili", 4), ("jalapeno", 4),
  ("cumin", 5), ("paprika", 5), ("curcuma", 5),
  ("carotte", 5), ("carrot", 5),
  ("celeri", 4), ("celery", 4),
  ("pomme de terre", 6), ("potato", 6), ("patate", 6),
  ("tomate", 6), ("tomato", 6),
  ("concombre", 4), ("cucumber", 4),
  ("poivron", 5), ("bell pepper", 5),
  ("laitue", 4), ("lettuce", 4),
  ("epinard", 5), ("spinach", 5),
  ("brocoli", 5), ("broccoli", 5),
  ("chou", 4), ("cabbage", 4),
  ("courgette", 4), ("zucchini", 4),
  ("champignon", 6), ("mushroom", 6),
  ("citron", 4), ("lemon", 4),
  ("lime", 4),
  ("orange", 5),
  ("pomme", 5), ("apple", 5),
  ("banane", 4), ("banana", 4),
  ("beurre", 8), ("butter", 8),
  ("creme", 6), ("cream", 6),
  ("lait", 6), ("milk", 6),
  ("yogourt", 6), ("yogurt", 6),
  ("ricotta", 8),
  ("feta", 10),
  ("parmesan", 12),
  ("bouillon", 5), ("broth", 5), ("stock", 5),
  ("pate tomate", 4), ("tomato paste", 4),
  ("concentre", 5),
  ("farine", 6), ("flour", 6),
  ("oeuf", 8), ("egg", 8),
  ("tapioca", 6), ("fecule", 5), ("starch", 5),
  ("levure", 5), ("yeast", 5),
  ("gelatine", 5),
  ("pates", 6), ("pasta", 6), ("spaghetti", 6), ("macaroni", 6),
  ("riz", 8), ("rice", 8),
  ("quinoa", 10),
  ("couscous", 6),
  ("noix", 15), ("nut", 15), ("amande", 15), ("almond", 15),
  ("arachide", 8), ("peanut", 8),
  ("sesame", 8)]

/-! Unit-conversion and package-size helpers from
src/recipe-price-runner-modifier.ts. -/

/-- An entry of the in-memory ingredient-equivalence cache
(`ingredientEquivalenceCache`), keyed by normalized ingredient name. The
cache itself is modelled as an association list in insertion order; JS `Map`
lookup (later `set` wins) is `mapLookup`, iteration is list order. -/
structure EquivVal where
  toQuantity : ℚ
  toUnit : String
deriving DecidableEq, Repr

def EquivCache : Type := List (String × EquivVal)

/-- `getUnitWeightFromEquivalences`: database-equivalence lookup, exact
normalized name first, then bidirectional substring containment over the
cached keys (first match wins). -/
def getUnitWeightFromEquivalences (cache : EquivCache) (ingredientName : String) : Option ℚ :=
  let normalized := normalizeText ingredientName
  match mapLookup cache normalized with
  | some v => if v.toUnit == "g" then some v.toQuantity else
      scanEquiv cache normalized
  | none => scanEquiv cache normalized
where
  /-- The partial-matching loop over the cache entries. -/
  scanEquiv : List (String × EquivVal) → String → Option ℚ
    | [], _ => none
    | (k, v) :: rest, normalized =>
      if v.toUnit == "g" && (containsSub normalized k || containsSub k normalized) then
        some v.toQuantity
      else scanEquiv rest normalized

/-- `getUnitWeightInGrams`: grams for one "unit" of an ingredient;
database equivalences first, then the static dictionary. -/
def getUnitWeightInGrams (cache : EquivCache) (ingredientName : String) : Option ℚ :=
  match getUnitWeightFromEquivalences cache ingredientName with
  | some w => some w
  | none =>
    let normalized := normalizeText ingredientName
    scanWeights UNIT_WEIGHT_IN_GRAMS normalized
where
  scanWeights : List (String × ℚ) → String → Option ℚ
    | [], _ => none
    | (key, weight) :: rest, normalized =>
      let keyNorm := normalizeText key
      if normalized == keyNorm || containsSub normalized keyNorm || containsSub keyNorm normalized then
        some weight
      else scanWeights rest normalized

/-- `getProductStandardSize`: exact normalized match first, then partial
(bidirectional containment), over `PRODUCT_STANDARD_SIZES`. -/
def getProductStandardSize (ingredientName : String) : Option StdSize :=
  let normalized := normalizeText ingredientName
  match scanExact PRODUCT_STANDARD_SIZES normalized with
  | some v => some v
  | none => scanPart PRODUCT_STANDARD_SIZES normalized
where
  scanExact : List (String × StdSize) → String → Option StdSize
    | [], _ => none
    | (key, v) :: rest, normalized =>
      if normalizeText key == normalized then some v else scanExact rest normalized
  scanPart : List (String × StdSize) → String → Option StdSize
    | [], _ => none
    | (key, v) :: rest, normalized =>
      let keyNorm := normalizeText key
      if containsSub normalized keyNorm || containsSub keyNorm normalized then some v
      else scanPart rest normalized

/-- `isUnitBasedIngredient`: names of ingredients bought by the piece,
matched by bidirectional containment. -/
def isUnitBasedIngredient (ingredientName : String) : Bool :=
  let normalized := normalizeText ingredientName
  UNIT_BASED_INGREDIENTS.any (fun item =>
    containsSub normalized (normalizeText item) || containsSub (normalizeText item) normalized)

/-- `isWeightOrVolumeUnit`: recognized mass/volume unit strings. -/
def isWeightOrVolumeUnit (unit : String) : Bool :=
  let u := toLowerTrim unit
  let weightUnits : List String :=
    ["g", "kg", "gramme", "grammes", "kilogramme", "kilogrammes", "lb", "lbs", "oz"]
  let volumeUnits : List String :=
    ["ml", "l", "cl", "millilitre", "millilitres", "litre", "litres", "centilitre",
     "centilitres",
     "c. à soupe", "c.s.", "tbsp", "cuillère à soupe", "cuilleres a soupe",
     "c. à thé", "c.t.", "tsp", "cuillère à thé", "cuilleres a the",
     "tasse", "tasses", "cup", "cups"]
  weightUnits.contains u || volumeUnits.contains u

/-- Counting units recognized by `calculateProportionalCost` (gousses,
branches, …, including the empty string). -/
def countingUnits : List String :=
  ["gousse", "gousses", "branche", "branches", "tige", "tiges",
   "feuille", "feuilles", "tranche", "tranches", "morceau", "morceaux",
   "unité", "unités", "pièce", "pièces", ""]

/-- The package-size / per-item-price heuristic chain of
`calculateProportionalCost` (the `else if` ladder on the normalized
ingredient name, source lines 499-571), returning
`(packageSizeGrams, isProbablyPerItemPrice)`; defaults are 500 g and
`false`. -/
def packageParams (normalized : String) (productPrice : ℚ) : ℚ × Bool :=
  if containsSub normalized "ail" || containsSub normalized "gousse" then
    (50, false)
  else if containsSub normalized "oignon vert" || containsSub normalized "oignons vert" ||
      containsSub normalized "oignons verts" || containsSub normalized "echalote verte" ||
      containsSub normalized "echalotes verte" || containsSub normalized "echalotes vertes" then
    (100, false)
  else if containsSub normalized "herbe" || containsSub normalized "thym" ||
      containsSub normalized "romarin" || containsSub normalized "basilic" ||
      containsSub normalized "persil" || containsSub normalized "coriandre" ||
      containsSub normalized "menthe" || containsSub normalized "laurier" then
    (30, false)
  else if containsSub normalized "carotte" then
    let per := productPrice < 0.80
    (if per then 80 else 1000, per)
  else if containsSub normalized "oignon" && !containsSub normalized "vert" then
    let per := productPrice < 0.80
    (if per then 150 else 1500, per)
  else if (containsSub normalized "pomme" && containsSub normalized "terre") ||
      containsSub normalized "patate" then
    let per := productPrice < 0.80
    (if per then 200 else 2000, per)
  else if containsSub normalized "citron" || containsSub normalized "lime" then
    let per := productPrice < 1.50
    (if per then 100 else 1000, per)
  else if containsSub normalized "orange" then
    let per := productPrice < 1.50
    (if per then 180 else 1000, per)
  else if containsSub normalized "piment" || containsSub normalized "jalapeno" then
    (100, false)
  else if containsSub normalized "banane" then
    let per := productPrice < 1.00
    (if per then 120 else 1000, per)
  else if containsSub normalized "pomme" && !containsSub normalized "terre" then
    let per := productPrice < 1.50
    (if per then 180 else 1000, per)
  else if containsSub normalized "tomate" then
    let per := productPrice < 1.50
    (if per then 150 else 1000, per)
  else if containsSub normalized "avocat" then
    let per := productPrice < 3.00
    (if per then 200 else 600, per)
  else if containsSub normalized "concombre" then
    let per := productPrice < 1.50
    (if per then 300 else 600, per)
  else if containsSub normalized "poivron" then
    let per := productPrice < 1.50
    (if per then 150 else 500, per)
  else if containsSub normalized "celeri" then
    (500, false)
  else (500, false)

/-- The in-line default standard sizes of `calculateProportionalCost` used
when no `PRODUCT_STANDARD_SIZES` entry matches but the recipe unit is a
mass/volume unit (meats 1000 g, fish 500 g, cheese 400 g, then 500 g or
500 ml by unit kind). -/
def defaultStandardSize (normalized : String) (unitLower : String) : Option StdSize :=
  if containsSub normalized "poulet" || containsSub normalized "boeuf" ||
      containsSub normalized "porc" || containsSub normalized "viande" ||
      containsSub normalized "jambon" || containsSub normalized "saucisse" ||
      containsSub normalized "bacon" || containsSub normalized "dinde" then
    some (StdSize.mk 1000 SizeUnit.g)
  else if containsSub normalized "poisson" || containsSub normalized "saumon" ||
      containsSub normalized "crevette" || containsSub normalized "morue" then
    some (StdSize.mk 500 SizeUnit.g)
  else if containsSub normalized "fromage" then
    some (StdSize.mk 400 SizeUnit.g)
  else if unitLower == "g" || unitLower == "kg" then
    some (StdSize.mk 500 SizeUnit.g)
  else if unitLower == "ml" || unitLower == "l" then
    some (StdSize.mk 500 SizeUnit.ml)
  else none

/-- Conversion of the recipe quantity into the standard-size unit
(ml or g), with the density ≈ 1 cross-domain approximation, as in
`calculateProportionalCost`. -/
def recipeQtyInStandardUnit (quantity : ℚ) (unitLower : String) (su : SizeUnit) : Option ℚ :=
  match su with
  | SizeUnit.ml =>
    match listLookup UNIT_TO_ML unitLower with
    | some f => some (quantity * f)
    | none =>
      match listLookup UNIT_TO_G unitLower with
      | some f => some (quantity * f)
      | none => none
  | SizeUnit.g =>
    match listLookup UNIT_TO_G unitLower with
    | some f => some (quantity * f)
    | none =>
      match listLookup UNIT_TO_ML unitLower with
      | some f => some (quantity * f)
      | none => none

/-- The per-item vs package cost of the known-unit-weight branch of
`calculateProportionalCost` (source lines 493-594, before the final
clamp): per-item price multiplies by the quantity; a package price is
proportional (`quantity × unitWeight / packageSizeGrams`) but never exceeds
the price of `⌈proportion⌉` whole packages. -/
def countedCost (quantity unitWeight productPrice : ℚ) (ingredientName : String) : ℚ :=
  let pp := packageParams (normalizeText ingredientName) productPrice
  if pp.2 then productPrice * quantity
  else
    jsMin (productPrice * (quantity * unitWeight / pp.1))
      (productPrice * ((⌈quantity * unitWeight / pp.1⌉ : ℤ) : ℚ))

/-- The standard-size resolution of `calculateProportionalCost` (source
lines 605-631): the curated table, then the in-line defaults when the
recipe unit is a mass/volume unit. -/
def resolvedStandardSize (ingredientName : String) (hasWeightVolumeUnit : Bool)
    (unitLower : String) : Option StdSize :=
  match getProductStandardSize ingredientName with
  | some s => some s
  | none =>
    if hasWeightVolumeUnit then defaultStandardSize (normalizeText ingredientName) unitLower
    else none

/-- The known-weight vs unknown-weight alternative of the count-based
branch of `calculateProportionalCost`, as a function of the resolved
per-unit weight. -/
def countedBranchAux (quantity productPrice : ℚ) (ingredientName : String) :
    Option ℚ → ℚ
  | some unitWeight => clampCents (countedCost quantity unitWeight productPrice ingredientName)
  | none =>
    -- unknown per-item weight: whole-package price, at most 2 packages,
    -- returned without rounding or the 0.01 floor
    productPrice * jsMin ((⌈quantity⌉ : ℤ) : ℚ) 2

/-- The mass/volume proportional alternative of
`calculateProportionalCost`, as a function of the resolved standard size;
an unknown size or an unrecognized recipe unit returns the raw product
price. -/
def proportionalFallbackAux (quantity : ℚ) (unitLower : String) (productPrice : ℚ) :
    Option StdSize → ℚ
  | none => productPrice
  | some ss =>
    match recipeQtyInStandardUnit quantity unitLower ss.unit with
    | none => productPrice
    | some rq => clampCents (productPrice * (rq / ss.size))

/-- `calculateProportionalCost` from the source: cost of the needed
quantity given a whole-package (or per-item) price. -/
def calculateProportionalCost (cache : EquivCache) (quantity : ℚ) (unit : String)
    (productPrice : ℚ) (ingredientName : String) : ℚ :=
  if !isWeightOrVolumeUnit (toLowerTrim unit) &&
      (isUnitBasedIngredient ingredientName || countingUnits.contains (toLowerTrim unit)) then
    countedBranchAux quantity productPrice ingredientName
      (getUnitWeightInGrams cache ingredientName)
  else
    proportionalFallbackAux quantity (toLowerTrim unit) productPrice
      (resolvedStandardSize ingredientName (isWeightOrVolumeUnit (toLowerTrim unit))
        (toLowerTrim unit))

/-- The recipe-quantity normalization of `calculateCostFromUnitPrice`
(source lines 724-760): convert the recipe unit into kg or L to match the
normalized price unit, with the density ≈ 1 cross-domain approximation and
the per-unit weight fallback for count-based recipe lines. -/
def normalizedQtyForPriceUnit (cache : EquivCache) (quantity : ℚ)
    (unitLower priceUnitLower : String) (ingredientName : String) : Option ℚ :=
  if priceUnitLower == "kg" then
    match listLookup UNIT_TO_G unitLower with
    | some f => some (quantity * f / 1000)
    | none =>
      if unitLower == "g" then some (quantity / 1000)
      else if unitLower == "kg" then some quantity
      else
        match listLookup UNIT_TO_ML unitLower with
        | some f => some (quantity * f / 1000)
        | none =>
          if unitLower == "" || unitLower == "unité" || unitLower == "unités" ||
              unitLower == "pièce" || unitLower == "pièces" then
            match getUnitWeightInGrams cache ingredientName with
            | some w => some (quantity * w / 1000)
            | none => none
          else none
  else if priceUnitLower == "l" then
    match listLookup UNIT_TO_ML unitLower with
    | some f => some (quantity * f / 1000)
    | none =>
      if unitLower == "ml" then some (quantity / 1000)
      else if unitLower == "l" then some quantity
      else
        match listLookup UNIT_TO_G unitLower with
        | some f => some (quantity * f / 1000)
        | none => none
  else none

/-- The final cost computation of `calculateCostFromUnitPrice`, as a
function of the normalized quantity: the documented default of 100 g per
unit applies to unit-based ingredients priced per kg when no conversion is
found; the last fallback multiplies the unit price by the raw quantity. -/
def unitPriceCostAux (quantity unitPrice : ℚ) (ingredientName priceUnitLower : String) :
    Option ℚ → ℚ
  | some qn => clampCents (unitPrice * qn)
  | none =>
    if isUnitBasedIngredient ingredientName && priceUnitLower == "kg" then
      clampCents (unitPrice * (quantity * 100 / 1000))
    else clampCents (unitPrice * quantity)

/-- `calculateCostFromUnitPrice` from the source: cost from a normalized
$/kg or $/L unit price. -/
def calculateCostFromUnitPrice (cache : EquivCache) (quantity : ℚ) (unit : String)
    (unitPrice : ℚ) (ingredientName : String) (priceUnit : String) : ℚ :=
  if jsToLowerStr priceUnit == "unité" || jsToLowerStr priceUnit == "" then
    clampCents (unitPrice * quantity)
  else
    unitPriceCostAux quantity unitPrice ingredientName (jsToLowerStr priceUnit)
      (normalizedQtyForPriceUnit cache quantity (toLowerTrim unit)
        (jsToLowerStr priceUnit) ingredientName)

/-! The product matcher and price selector from
src/recipe-price-runner-modifier.ts. -/

/-- Order-preserving deduplication (JS `Array.from(new Set(...))`). -/
def dedupFirstAux : List String → List String → List String
  | [], _ => []
  | x :: rest, seen =>
    if seen.contains x then dedupFirstAux rest seen
    else x :: dedupFirstAux rest (x :: seen)

def dedupFirst (l : List String) : List String := dedupFirstAux l []

/-- `getRelatedKeywords`: keyword expansions whose key (or one of whose
values) matches the ingredient name. -/
def getRelatedKeywords (ingredientName : String) : List String :=
  let normalized := normalizeText ingredientName
  let keywords := INGREDIENT_KEYWORDS.foldl (fun acc kv =>
    let keyNorm := normalizeText kv.1
    let acc1 :=
      if containsSub normalized keyNorm || containsSub keyNorm normalized then acc ++ kv.2
      else acc
    if kv.2.any (fun v => containsSub normalized (normalizeText v)) then acc1 ++ kv.2
    else acc1) []
  dedupFirst keywords

/-- The non-food-denylist rejection of `scorePromoMatch`. -/
def promoDenylisted (promoNorm : String) : Bool :=
  EXCLUDED_PRODUCT_KEYWORDS.any (fun ex => containsSub promoNorm ex)

/-- The full-ingredient-name whole-word test of `scorePromoMatch` (source
line 964): either some candidate word equals the whole normalized
ingredient name, or the name occurs whole-word inside the candidate. -/
def fullNameWordHit (promoWords : List String) (promoNorm ingredientNorm : String) : Bool :=
  promoWords.any (fun pw => pw == ingredientNorm) || matchesWholeWord promoNorm ingredientNorm

/-- The keyword-expansion floor test of `scorePromoMatch` (source lines
994-1001). -/
def keywordFloorHit (ingredientName : String) (promoWords : List String)
    (promoNorm : String) : Bool :=
  (getRelatedKeywords ingredientName).any (fun kw =>
    promoWords.any (fun pw => pw == kw) || matchesWholeWord promoNorm kw)

/-- Words of length ≥ 2 of the normalized string (`split(/\s+/)` plus the
length filter of `scorePromoMatch`). -/
def wordsMin2 (norm : String) : List String :=
  (splitWs norm).filter (fun w => decide (2 ≤ w.length))

/-- The exact whole-word match count of `scorePromoMatch`. -/
def exactWordMatchCount (ingredientWords promoWords : List String) : Nat :=
  ingredientWords.countP (fun iw => promoWords.any (fun pw => pw == iw))

/-- The count of ingredient words scoring a "partial" match in
`scorePromoMatch`: not an exact word match, a prefix or suffix of some
candidate word, and of length ≥ 4. Each such word contributes 0.5 to the
source's `partialMatches` accumulator, i.e. the accumulator equals
`fragMatchCount / 2`. -/
def fragMatchCount (ingredientWords promoWords : List String) : Nat :=
  ingredientWords.countP (fun iw =>
    !(promoWords.any (fun pw => pw == iw)) &&
    (promoWords.any (fun pw => startsWithStr pw iw || endsWithStr pw iw)) &&
    decide (4 ≤ iw.length))

/-- The pre-floor base score of `scorePromoMatch` (source lines 969-991):
exact whole-word matches count 1, each "partial" (prefix/suffix, length
≥ 4) match contributes 0.5 to the accumulator, and the partial total is
weighted by 0.3. -/
def baseScoreOf (ingredientName promoName : String) : ℚ :=
  (exactWordMatchCount (wordsMin2 (normalizeText ingredientName))
      (wordsMin2 (normalizeText promoName)) : ℚ) /
    ((wordsMin2 (normalizeText ingredientName)).length : ℚ) +
  ((fragMatchCount (wordsMin2 (normalizeText ingredientName))
      (wordsMin2 (normalizeText promoName)) : ℚ) * (1/2)) /
    ((wordsMin2 (normalizeText ingredientName)).length : ℚ) * (3/10)

/-- `scorePromoMatch` from the source: similarity score in `[0, 1]` between
an ingredient name and a candidate (promotion/reference) product name.
Denylisted candidates score 0; a whole-word hit of the full ingredient name
scores 1; an ingredient name with no words of length ≥ 2 scores 0; a
whole-word hit of a related keyword floors the base score at 0.5. -/
def scorePromoMatch (ingredientName promoName : String) : ℚ :=
  if promoDenylisted (normalizeText promoName) then 0
  else if fullNameWordHit (wordsMin2 (normalizeText promoName)) (normalizeText promoName)
      (normalizeText ingredientName) then 1
  else if (wordsMin2 (normalizeText ingredientName)).length == 0 then 0
  else if keywordFloorHit ingredientName (wordsMin2 (normalizeText promoName))
      (normalizeText promoName) then
    jsMax (baseScoreOf ingredientName promoName) (1/2)
  else baseScoreOf ingredientName promoName

/-- `getIngredientPriceCap`: first cap-table entry matching the normalized
name by bidirectional containment, else the global default cap. -/
def scanCaps : List (String × ℚ) → String → ℚ
  | [], _ => GLOBAL_MAX_INGREDIENT_PRICE
  | (key, cap) :: rest, normalized =>
    if containsSub normalized (normalizeText key) || containsSub (normalizeText key) normalized
    then cap
    else scanCaps rest normalized

def getIngredientPriceCap (ingredientName : String) : ℚ :=
  scanCaps INGREDIENT_PRICE_CAPS (normalizeText ingredientName)

/-- A row of the per-store `unified_prices` load. -/
structure UnifiedPriceData where
  genericProduct : Option String
  regularPrice : Option ℚ
  salePrice : Option ℚ
  unitPrice : Option ℚ
  quantity : ℚ
  unit : String
deriving DecidableEq, Repr

structure PromoEntry where
  productName : String
  promoPrice : ℚ
deriving DecidableEq, Repr

structure RefEntry where
  productName : String
  price : ℚ
deriving DecidableEq, Repr

/-- `CachedStoreData`: the three per-store price catalogs. -/
structure CachedStoreData where
  unified : List UnifiedPriceData
  promos : List PromoEntry
  refs : List RefEntry
deriving DecidableEq, Repr

/-- Result of `findUnifiedPrice`. -/
structure UnifiedMatch where
  unitPrice : ℚ
  normalizedUnit : String
  productPrice : ℚ
  quantity : ℚ
  unit : String
deriving DecidableEq, Repr

/-- The scanning loop of `findUnifiedPrice`: exact normalized-name match
breaks immediately; otherwise the best containment score
`fullNameLength / productNameLength` wins. -/
def scanUnified (fullNameNorm : String) (searchTerms : List String) :
    List UnifiedPriceData → Option (UnifiedPriceData × ℚ) → Option UnifiedPriceData
  | [], acc => acc.map Prod.fst
  | u :: rest, acc =>
    match u.genericProduct with
    | none => scanUnified fullNameNorm searchTerms rest acc
    | some g =>
      if g == "" then scanUnified fullNameNorm searchTerms rest acc
      else
        let productNorm := normalizeText g
        if productNorm == fullNameNorm then some u
        else
          let isMatch := containsSub productNorm fullNameNorm ||
            containsSub fullNameNorm productNorm ||
            searchTerms.any (fun t => containsSub productNorm t)
          if isMatch then
            let score := (fullNameNorm.length : ℚ) / (productNorm.length : ℚ)
            match acc with
            | none => scanUnified fullNameNorm searchTerms rest (some (u, score))
            | some (b, bs) =>
              if score > bs then scanUnified fullNameNorm searchTerms rest (some (u, score))
              else scanUnified fullNameNorm searchTerms rest (some (b, bs))
          else scanUnified fullNameNorm searchTerms rest acc

/-- `findUnifiedPrice` from the source. The stored `unitPrice` is already
normalized to $/kg or $/L; otherwise it is computed from the package price
and quantity (g → kg and ml → L by × 1000). -/
def findUnifiedPrice (ingredientName : String) (storeData : CachedStoreData) :
    Option UnifiedMatch :=
  let fullNameNorm := normalizeText ingredientName
  let searchTerms := (splitWs fullNameNorm).filter (fun t => decide (2 < t.length))
  match scanUnified fullNameNorm searchTerms storeData.unified none with
  | none => none
  | some bm =>
    let productPrice := bm.salePrice.getD (bm.regularPrice.getD 0)
    if productPrice == 0 then none
    else
      let unit := jsToLowerStr bm.unit
      let quantity := if bm.quantity == 0 then 1 else bm.quantity
      match bm.unitPrice with
      | some up =>
        let normalizedUnit :=
          if unit == "g" || unit == "kg" then "kg"
          else if unit == "ml" || unit == "l" then "l"
          else if unit == "" then "unité" else unit
        some ⟨up, normalizedUnit, productPrice, bm.quantity, bm.unit⟩
      | none =>
        if 0 < quantity then
          if unit == "g" then
            some ⟨productPrice / quantity * 1000, "kg", productPrice, bm.quantity, bm.unit⟩
          else if unit == "ml" then
            some ⟨productPrice / quantity * 1000, "l", productPrice, bm.quantity, bm.unit⟩
          else if unit == "kg" then
            some ⟨productPrice / quantity, "kg", productPrice, bm.quantity, bm.unit⟩
          else if unit == "l" then
            some ⟨productPrice / quantity, "l", productPrice, bm.quantity, bm.unit⟩
          else
            some ⟨productPrice / quantity, if unit == "" then "unité" else unit,
              productPrice, bm.quantity, bm.unit⟩
        else none

inductive PriceSource | unified | promo | reference | estimate
deriving DecidableEq, Repr

/-- `IngredientPricingResult` extended with the normalized unit. -/
structure PricingResult where
  ingredientName : String
  price : ℚ
  source : PriceSource
  normalizedUnit : Option String
deriving DecidableEq, Repr

/-- The promotion scan of `findBestPrice`: skip promotions priced above the
ingredient cap, keep matches scoring ≥ 0.5, prefer the higher score and
break ties by the lower price. Accumulator holds (price, score, name). -/
def bestPromoScan (ingredientName : String) (cap : ℚ) :
    List PromoEntry → Option (ℚ × ℚ × String) → Option (ℚ × ℚ × String)
  | [], acc => acc
  | p :: rest, acc =>
    if p.promoPrice > cap then bestPromoScan ingredientName cap rest acc
    else
      if 1/2 ≤ scorePromoMatch ingredientName p.productName then
        match acc with
        | none =>
          bestPromoScan ingredientName cap rest
            (some (p.promoPrice, scorePromoMatch ingredientName p.productName, p.productName))
        | some (bp, bs, bn) =>
          if scorePromoMatch ingredientName p.productName > bs ||
              (scorePromoMatch ingredientName p.productName == bs && p.promoPrice < bp) then
            bestPromoScan ingredientName cap rest
              (some (p.promoPrice, scorePromoMatch ingredientName p.productName, p.productName))
          else bestPromoScan ingredientName cap rest (some (bp, bs, bn))
      else bestPromoScan ingredientName cap rest acc

/-- The reference-price scan of `findBestPrice` (same filtering and
tie-break as promotions). Accumulator holds (price, score). -/
def bestRefScan (ingredientName : String) (cap : ℚ) :
    List RefEntry → Option (ℚ × ℚ) → Option (ℚ × ℚ)
  | [], acc => acc
  | r :: rest, acc =>
    if r.price > cap then bestRefScan ingredientName cap rest acc
    else
      if 1/2 ≤ scorePromoMatch ingredientName r.productName then
        match acc with
        | none =>
          bestRefScan ingredientName cap rest
            (some (r.price, scorePromoMatch ingredientName r.productName))
        | some (bp, bs) =>
          if scorePromoMatch ingredientName r.productName > bs ||
              (scorePromoMatch ingredientName r.productName == bs && r.price < bp) then
            bestRefScan ingredientName cap rest
              (some (r.price, scorePromoMatch ingredientName r.productName))
          else bestRefScan ingredientName cap rest (some (bp, bs))
      else bestRefScan ingredientName cap rest acc

/-- The category-estimate fallback of `findBestPrice` (JS truthiness on the
category and on the table value). -/
def categoryEstimateOf (ingredientCategory : Option String) : ℚ :=
  match ingredientCategory with
  | none => 3.99
  | some c =>
    if c == "" then 3.99
    else
      match listLookup categoryEstimates c with
      | some v => if v == 0 then 3.99 else v
      | none => 3.99

/-- Priorities 2-4 of `findBestPrice` (promotions, reference prices,
category estimate). -/
def findBestPriceAfterUnified (ingredientName : String)
    (ingredientCategory : Option String) (storeData : CachedStoreData)
    (cap : ℚ) : PricingResult :=
  match bestPromoScan ingredientName cap storeData.promos none with
  | some (price, _, _) => ⟨ingredientName, price, PriceSource.promo, none⟩
  | none =>
    match bestRefScan ingredientName cap storeData.refs none with
    | some (price, _) => ⟨ingredientName, price, PriceSource.reference, none⟩
    | none =>
      ⟨ingredientName, jsMin (categoryEstimateOf ingredientCategory) cap,
        PriceSource.estimate, none⟩

/-- Priority 1 of `findBestPrice`, as a function of the unified-price
lookup result: a unified match with a positive unit price is used (capped),
anything else falls through to priorities 2-4. -/
def findBestPriceAux (ingredientName : String) (ingredientCategory : Option String)
    (storeData : CachedStoreData) (cap : ℚ) : Option UnifiedMatch → PricingResult
  | some um =>
    if 0 < um.unitPrice then
      ⟨ingredientName, jsMin um.unitPrice cap, PriceSource.unified,
        some um.normalizedUnit⟩
    else findBestPriceAfterUnified ingredientName ingredientCategory storeData cap
  | none => findBestPriceAfterUnified ingredientName ingredientCategory storeData cap

/-- `findBestPrice` from the source: price-source priority chain
(unified → promotion → reference → category estimate), each step bounded by
the ingredient-specific cap. -/
def findBestPrice (ingredientName : String) (ingredientCategory : Option String)
    (storeData : CachedStoreData) : PricingResult :=
  findBestPriceAux ingredientName ingredientCategory storeData
    (getIngredientPriceCap ingredientName) (findUnifiedPrice ingredientName storeData)

/-! The per-(recipe, store) aggregation and the calculation run from
src/recipe-price-runner-modifier.ts (`runRecipePriceCalculation`).
Database reads, the clock and per-pair database failures are threaded as
explicit arguments; rows that the run would upsert are returned as a
list. -/

structure IngredientRec where
  id : String
  name : String
  category : Option String
deriving DecidableEq, Repr

structure RecipeRec where
  id : String
  name : String
deriving DecidableEq, Repr

structure StoreRec where
  id : String
  name : String
deriving DecidableEq, Repr

structure RecipeIngredientRec where
  recipeId : String
  ingredientId : String
  quantity : Option ℚ
  unit : Option String
deriving DecidableEq, Repr

/-- JS `ri.quantity || 1`: null and 0 are falsy. -/
def qtyOrOne : Option ℚ → ℚ
  | none => 1
  | some q => if q == 0 then 1 else q

/-- JS `ri.unit || 'unité'`: null and the empty string are falsy. -/
def unitOrDefault : Option String → String
  | none => "unité"
  | some u => if u == "" then "unité" else u

/-- An aggregated ingredient line (`aggregatedIngs` entry). -/
structure AggIng where
  ingredientId : String
  quantity : ℚ
  unit : String
deriving DecidableEq, Repr

/-- One step of building `aggregatedIngs`: existing entries get their
quantity summed in place (first unit seen is kept), new ids are appended
(JS `Map` preserves insertion order). -/
def addAgg (acc : List AggIng) (ri : RecipeIngredientRec) : List AggIng :=
  if acc.any (fun a => a.ingredientId == ri.ingredientId) then
    acc.map (fun a =>
      if a.ingredientId == ri.ingredientId then
        { a with quantity := a.quantity + qtyOrOne ri.quantity }
      else a)
  else acc ++ [⟨ri.ingredientId, qtyOrOne ri.quantity, unitOrDefault ri.unit⟩]

def aggregateIngs (ris : List RecipeIngredientRec) : List AggIng :=
  ris.foldl addAgg []

/-- Lookup in `ingredientMap` (a JS `Map` built from the ingredient list;
a later entry with the same id overwrites an earlier one). -/
def ingredientById (l : List IngredientRec) (id0 : String) : Option IngredientRec :=
  l.foldl (fun acc i => if i.id == id0 then some i else acc) none

structure IngredientBreakdownItem where
  ingredientId : String
  ingredientName : String
  quantity : ℚ
  unit : String
  unitPrice : ℚ
  priceUnit : String
  calculatedCost : ℚ
  source : PriceSource
deriving DecidableEq, Repr

/-- JS truthiness of the optional `normalizedUnit` (`some ""` is falsy). -/
def truthyOpt : Option String → Option String
  | none => none
  | some s => if s == "" then none else some s

/-- The `priceUnit` display label (source lines 1344-1351): the normalized
unit for a unified price, else a unit-keyword containment heuristic. -/
def priceUnitLabel (pricing : PricingResult) (unit : String) : String :=
  match
    (if pricing.source == PriceSource.unified then truthyOpt pricing.normalizedUnit
     else none) with
  | some nu => nu
  | none =>
    let unitLower := jsToLowerStr unit
    if (["g", "kg", "lb", "oz"] : List String).any (fun u => containsSub unitLower u) then "kg"
    else if (["ml", "l", "cl", "tasse", "cup"] : List String).any
        (fun u => containsSub unitLower u) then "l"
    else "unité"

def MAX_RECIPE_TOTAL : ℚ := 200

/-- One step of the per-ingredient pricing loop (source lines 1303-1363),
as a function of the `ingredientMap` lookup: an unresolvable ingredient id
only increments the missing count; a resolved ingredient is priced (an
estimate source also increments the missing count), its cost is capped at
`GLOBAL_MAX_INGREDIENT_COST`, added to the total, and recorded in the
breakdown. -/
def priceIngredientStep (cache : EquivCache) (storeData : CachedStoreData) (ri : AggIng)
    (acc : ℚ × Nat × List IngredientBreakdownItem) :
    Option IngredientRec → ℚ × Nat × List IngredientBreakdownItem
  | none => (acc.1, acc.2.1 + 1, acc.2.2)
  | some ing =>
    let pricing := findBestPrice ing.name ing.category storeData
    let mInc : Nat := if pricing.source == PriceSource.estimate then 1 else 0
    let quantity := if ri.quantity == 0 then 1 else ri.quantity
    let unit := if ri.unit == "" then "unité" else ri.unit
    let costForQuantity0 :=
      if pricing.source == PriceSource.unified then
        match truthyOpt pricing.normalizedUnit with
        | some nu => calculateCostFromUnitPrice cache quantity unit pricing.price ing.name nu
        | none => calculateProportionalCost cache quantity unit pricing.price ing.name
      else calculateProportionalCost cache quantity unit pricing.price ing.name
    let costForQuantity :=
      if costForQuantity0 > GLOBAL_MAX_INGREDIENT_COST then GLOBAL_MAX_INGREDIENT_COST
      else costForQuantity0
    let item : IngredientBreakdownItem :=
      ⟨ri.ingredientId, ing.name, quantity, unit, pricing.price,
        priceUnitLabel pricing unit, roundCents costForQuantity, pricing.source⟩
    (costForQuantity + acc.1, mInc + acc.2.1, item :: acc.2.2)

/-- The per-ingredient pricing loop of the run: fold `priceIngredientStep`
over the aggregated ingredient lines. Returns (total, missingCount,
breakdown). -/
def priceIngredients (cache : EquivCache) (ingredients : List IngredientRec)
    (storeData : CachedStoreData) : List AggIng → ℚ × Nat × List IngredientBreakdownItem
  | [] => (0, 0, [])
  | ri :: rest =>
    priceIngredientStep cache storeData ri
      (priceIngredients cache ingredients storeData rest)
      (ingredientById ingredients ri.ingredientId)

/-- The data stored for one (recipe, store) pair. -/
structure RowCore where
  totalCost : ℚ
  missingCount : Nat
  breakdown : List IngredientBreakdownItem
  isComplete : Bool
deriving DecidableEq, Repr

/-- One (recipe, store) pair of the run: aggregate duplicate ingredient
lines, price every ingredient, round the total and cap it at
`MAX_RECIPE_TOTAL`; `isComplete` is `missingCount === 0 && totalCost > 0`
(source lines 1281-1373). -/
def processRecipeStore (cache : EquivCache) (ingredients : List IngredientRec)
    (recipeIngs : List RecipeIngredientRec) (storeData : CachedStoreData) : RowCore :=
  let r := priceIngredients cache ingredients storeData (aggregateIngs recipeIngs)
  let totalCost0 := roundCents r.1
  let totalCost := if totalCost0 > MAX_RECIPE_TOTAL then MAX_RECIPE_TOTAL else totalCost0
  ⟨totalCost, r.2.1, r.2.2, decide (r.2.1 = 0) && decide (0 < totalCost)⟩

/-- The module-level run lock: `isCalculating` and
`calculationStartTime`. -/
structure RunState where
  isCalculating : Bool
  calculationStartTime : Option Nat
deriving DecidableEq, Repr

def MAX_CALCULATION_TIME_MS : Nat := 10 * 60 * 1000

structure RunSummary where
  success : Bool
  recipesProcessed : Nat
  storesProcessed : Nat
  errors : List String
deriving DecidableEq, Repr

/-- A `recipe_store_prices` row as upserted by the run (the weekOf and
calculatedAt timestamps, pure clock reads, are omitted). -/
structure RecipeStorePriceRow where
  recipeId : String
  storeId : String
  totalCost : ℚ
  missingIngredientsCount : Nat
  isComplete : Bool
  breakdown : List IngredientBreakdownItem
deriving DecidableEq, Repr

/-- The base catalog data loaded at the start of a run. -/
structure RunInput where
  recipes : List RecipeRec
  stores : List StoreRec
  ingredients : List IngredientRec
  recipeIngredients : List RecipeIngredientRec
  storeData : String → CachedStoreData

/-- Modelled from the spec: `STORE_IDS` is imported from './types', a file
absent from src/. src/mock-data.ts defines the same identifiers, with
`ADONIS = "adonis"`, matching the spec's exclusion set of disallowed store
ids. -/
def STORE_IDS_ADONIS : String := "adonis"

/-- Modelled from the spec: the `PROVIGO` member of the missing
`STORE_IDS`, `"provigo"` as in src/mock-data.ts. -/
def STORE_IDS_PROVIGO : String := "provigo"

/-- The preventive store filtering (source lines 1231-1233): Adonis and
Provigo are removed before any pricing work. -/
def filteredStores (input : RunInput) : List StoreRec :=
  input.stores.filter (fun s =>
    !(s.id == STORE_IDS_ADONIS) && !(s.id == STORE_IDS_PROVIGO))

def pairErrorMsg (recipeId storeId msg : String) : String :=
  "Recipe " ++ recipeId ++ " / Store " ++ storeId ++ ": " ++ msg

/-- The inner recipe loop for one store (source lines 1281-1413): a
per-pair failure (modelled by the `perr` oracle) is recorded and skipped;
a successful pair upserts one row and increments `storesProcessed`.
Returns (rows, errors, storesProcessed increment). -/
def processRecipesForStore (cache : EquivCache) (input : RunInput)
    (perr : String → String → Option String) (store : StoreRec) :
    List RecipeRec → List RecipeStorePriceRow × List String × Nat
  | [] => ([], [], 0)
  | r :: rest =>
    let acc := processRecipesForStore cache input perr store rest
    match perr r.id store.id with
    | some m => (acc.1, pairErrorMsg r.id store.id m :: acc.2.1, acc.2.2)
    | none =>
      let core := processRecipeStore cache input.ingredients
        (input.recipeIngredients.filter (fun ri => ri.recipeId == r.id))
        (input.storeData store.id)
      (⟨r.id, store.id, core.totalCost, core.missingCount, core.isComplete,
          core.breakdown⟩ :: acc.1,
        acc.2.1, acc.2.2 + 1)

/-- The outer store loop (source lines 1245-1415). `recipesProcessed` is
assigned `allRecipes.length` after each store iteration, so it is 0 when no
store is iterated and the number of loaded recipes otherwise. Returns
(rows, errors, storesProcessed, recipesProcessed). -/
def runStores (cache : EquivCache) (input : RunInput)
    (perr : String → String → Option String) :
    List StoreRec → List RecipeStorePriceRow × List String × Nat × Nat
  | [] => ([], [], 0, 0)
  | s :: rest =>
    let this0 := processRecipesForStore cache input perr s input.recipes
    let acc := runStores cache input perr rest
    (this0.1 ++ acc.1, this0.2.1 ++ acc.2.1, this0.2.2 + acc.2.2.1,
      input.recipes.length)

/-- The stuck-lock auto-reset (source lines 1187-1194): only when the flag
is set, the start time is truthy (non-null and non-zero) and more than
`MAX_CALCULATION_TIME_MS` has elapsed. -/
def autoResetState (st : RunState) (now : Nat) : RunState :=
  match st.calculationStartTime with
  | some t =>
    if st.isCalculating && !(t == 0) && decide (MAX_CALCULATION_TIME_MS < now - t) then
      ⟨false, none⟩
    else st
  | none => st

/-- `runRecipePriceCalculation` from the source, as a pure transition:
given the lock state, the clock, the equivalence cache, the result of
loading the base catalogs (`Except.error` models a fatal load failure
caught by the outer `try`) and a per-pair failure oracle, it returns the
final lock state, the run summary and the rows upserted. The `finally`
block makes every accepted run end with the lock released. -/
def runRecipePriceCalculation (st : RunState) (now : Nat) (cache : EquivCache)
    (loadResult : Except String RunInput)
    (pairError : String → String → Option String) :
    RunState × RunSummary × List RecipeStorePriceRow :=
  if (autoResetState st now).isCalculating then
    (autoResetState st now, ⟨false, 0, 0, ["Calculation already in progress"]⟩, [])
  else
    match loadResult with
    | Except.error m => (⟨false, none⟩, ⟨false, 0, 0, [m]⟩, [])
    | Except.ok input =>
      (⟨false, none⟩,
        ⟨true, (runStores cache input pairError (filteredStores input)).2.2.2,
          (runStores cache input pairError (filteredStores input)).2.2.1,
          (runStores cache input pairError (filteredStores input)).2.1⟩,
        (runStores cache input pairError (filteredStores input)).1)

/-! The simplified preview endpoint of src/server.ts over the fixture data
of src/mock-data.ts. JS values that are compared across types (the numeric
`allowedStoreIds` against string store ids, and the absent `id` property of
the mock recipe-ingredient rows) are modelled by a small JS-value type with
strict-equality semantics. -/

inductive JsVal
  | undef
  | jnum (n : ℚ)
  | jstr (s : String)
deriving DecidableEq, Repr

/-- JS `===` on the values occurring here: equal only within the same type
with equal payloads (and `undefined === undefined`). -/
def jsEq : JsVal → JsVal → Bool
  | JsVal.undef, JsVal.undef => true
  | JsVal.jnum a, JsVal.jnum b => a == b
  | JsVal.jstr a, JsVal.jstr b => a == b
  | _, _ => false

/-- A `prices` row of src/mock-data.ts. -/
structure MockPrice where
  storeId : JsVal
  ingredientId : JsVal
  price : ℚ
  quantity : ℚ
  unit : String
deriving DecidableEq, Repr

/-- A recipe-ingredient row of src/mock-data.ts: the rows carry
`ingredientId`, `quantity` and `unit` — and no `id` property. -/
structure MockRecipeIng where
  ingredientId : JsVal
  quantity : ℚ
  unit : String
deriving DecidableEq, Repr

/-- Reading `ingredient.id` (src/server.ts line 46) on a mock
recipe-ingredient row: the property does not exist, so the read yields
`undefined`. -/
def MockRecipeIng.idProp (_ : MockRecipeIng) : JsVal := JsVal.undef

structure MockRecipe where
  id : String
  title : String
  ingredients : List MockRecipeIng
deriving DecidableEq, Repr

/-- Reading `recipe.name` (src/server.ts line 98) on a mock recipe row: the
rows define `title`, not `name`, so the read yields `undefined`. -/
def MockRecipe.nameProp (_ : MockRecipe) : JsVal := JsVal.undef

/-- `getStandardQuantityInGrams` from src/server.ts. -/
def getStandardQuantityInGrams (quantity : ℚ) (unit : String) : ℚ :=
  let u := toLowerTrim unit
  if u == "kg" then quantity * 1000
  else if u == "lb" || u == "lbs" || u == "livre" then quantity * 454
  else if u == "l" then quantity * 1000
  else if u == "ml" then quantity
  else quantity

/-- The allowed-store list of the `/calculate` endpoint (src/server.ts
line 36): the NUMBERS 1-4, while every price row carries a STRING store
id. -/
def allowedStoreIds : List JsVal :=
  [JsVal.jnum 1, JsVal.jnum 2, JsVal.jnum 3, JsVal.jnum 4]

structure BestDeal where
  storeId : JsVal
  price : ℚ
  unit : String
  costCalculated : ℚ
deriving DecidableEq, Repr

/-- Per-ingredient result of the endpoint: either the "Non disponible dans
les épiceries sélectionnées" error or a best deal. -/
structure ServerIngResult where
  ingredient : MockRecipeIng
  errored : Bool
  bestDeal : Option BestDeal
deriving DecidableEq, Repr

structure ServerRecipeResult where
  recipeName : JsVal
  ingredients : List ServerIngResult
  totalPrice : ℚ
deriving DecidableEq, Repr

/-- The price filter of the endpoint (src/server.ts lines 45-48):
`p.ingredientId === ingredient.id && allowedStoreIds.includes(p.storeId)`. -/
def availablePricesFor (prices : List MockPrice) (ing : MockRecipeIng) : List MockPrice :=
  prices.filter (fun p =>
    jsEq p.ingredientId ing.idProp && allowedStoreIds.any (fun a => jsEq a p.storeId))

/-- `parseFloat(x.toFixed(2))`. -/
def toFixed2 (x : ℚ) : ℚ := roundCents x

/-- The best-deal fold of the endpoint (initial best price = Infinity, so
the first candidate always wins; strict `<` thereafter). Returns the best
cost and deal. -/
def bestDealScan (recipeNeedInGrams : ℚ) :
    List MockPrice → Option (ℚ × BestDeal) → Option (ℚ × BestDeal)
  | [], acc => acc
  | p :: rest, acc =>
    let storeQtyInGrams := getStandardQuantityInGrams p.quantity p.unit
    let pricePerGram := p.price / storeQtyInGrams
    let costForRecipe := pricePerGram * recipeNeedInGrams
    let better :=
      match acc with
      | none => true
      | some (best, _) => decide (costForRecipe < best)
    if better then
      bestDealScan recipeNeedInGrams rest
        (some (costForRecipe, ⟨p.storeId, p.price, p.unit, toFixed2 costForRecipe⟩))
    else bestDealScan recipeNeedInGrams rest acc

/-- The per-recipe loop body of `/calculate` (src/server.ts lines 38-102).
Returns the ingredient results, whether the recipe stayed valid, and the
accumulated total. -/
def serverCalcIngredients (prices : List MockPrice) :
    List MockRecipeIng → List ServerIngResult × Bool × ℚ
  | [] => ([], true, 0)
  | ing :: rest =>
    let acc := serverCalcIngredients prices rest
    let avail := availablePricesFor prices ing
    if avail.isEmpty then
      (⟨ing, true, none⟩ :: acc.1, false, acc.2.2)
    else
      match bestDealScan (getStandardQuantityInGrams ing.quantity ing.unit) avail none with
      | some (best, deal) => (⟨ing, false, some deal⟩ :: acc.1, acc.2.1, acc.2.2 + best)
      | none => (⟨ing, false, none⟩ :: acc.1, acc.2.1, acc.2.2)

/-- The `/calculate` endpoint of src/server.ts. -/
def serverCalculate (recipes : List MockRecipe) (prices : List MockPrice) :
    List ServerRecipeResult :=
  recipes.map (fun recipe =>
    let r := serverCalcIngredients prices recipe.ingredients
    ⟨recipe.nameProp, r.1, if r.2.1 then toFixed2 r.2.2 else 0⟩)

/-! The fixture data of src/mock-data.ts. -/

def mockRecipes : List MockRecipe := [
  ⟨"rec_pate_chinois", "Pâté Chinois Classique",
    [⟨JsVal.jstr "ing_boeuf", 1, "lb"⟩,
     ⟨JsVal.jstr "ing_patates", 1, "kg"⟩,
     ⟨JsVal.jstr "ing_mais", 398, "ml"⟩]⟩,
  ⟨"rec_paella", "Paella (Recette Incomplète)",
    [⟨JsVal.jstr "ing_safran", 2, "g"⟩,
     ⟨JsVal.jstr "ing_boeuf", 500, "g"⟩]⟩]

def mockPrices : List MockPrice := [
  ⟨JsVal.jstr "iga", JsVal.jstr "ing_boeuf", 6.99, 1, "lb"⟩,
  ⟨JsVal.jstr "iga", JsVal.jstr "ing_patates", 4.99, 5, "lb"⟩,
  ⟨JsVal.jstr "iga", JsVal.jstr "ing_mais", 1.99, 398, "ml"⟩,
  ⟨JsVal.jstr "super-c", JsVal.jstr "ing_boeuf", 4.44, 1, "lb"⟩,
  ⟨JsVal.jstr "super-c", JsVal.jstr "ing_patates", 2.99, 5, "lb"⟩,
  ⟨JsVal.jstr "super-c", JsVal.jstr "ing_mais", 0.99, 398, "ml"⟩,
  ⟨JsVal.jstr "metro", JsVal.jstr "ing_boeuf", 5.49, 1, "lb"⟩,
  ⟨JsVal.jstr "metro", JsVal.jstr "ing_patates", 3.49, 5, "lb"⟩,
  ⟨JsVal.jstr "metro", JsVal.jstr "ing_mais", 1.49, 398, "ml"⟩,
  ⟨JsVal.jstr "maxi", JsVal.jstr "ing_boeuf", 4.99, 1, "lb"⟩,
  ⟨JsVal.jstr "maxi", JsVal.jstr "ing_patates", 2.49, 5, "lb"⟩,
  ⟨JsVal.jstr "maxi", JsVal.jstr "ing_mais", 0.89, 398, "ml"⟩,
  ⟨JsVal.jstr "adonis", JsVal.jstr "ing_boeuf", 1.00, 1, "lb"⟩,
  ⟨JsVal.jstr "adonis", JsVal.jstr "ing_patates", 0.99, 5, "lb"⟩,
  ⟨JsVal.jstr "adonis", JsVal.jstr "ing_mais", 0.49, 398, "ml"⟩,
  ⟨JsVal.jstr "provigo", JsVal.jstr "ing_boeuf", 5.99, 1, "lb"⟩]

/-! Theorems. -/

lemma jsMax_left_le (a b : ℚ) : a ≤ jsMax a b := by
  unfold jsMax; split
  · assumption
  · exact le_refl a

lemma jsMin_le_right (a b : ℚ) : jsMin a b ≤ b := by
  unfold jsMin; split
  · assumption
  · exact le_refl b

lemma clampCents_ge (x : ℚ) : 1/100 ≤ clampCents x := jsMax_left_le _ _

lemma clampCents_cents (x : ℚ) : isCents (clampCents x) := by
  unfold clampCents jsMax roundCents
  split
  · exact ⟨⌊x * 100 + 1/2⌋, rfl⟩
  · exact ⟨1, by norm_num⟩

lemma clampCents_ok (x : ℚ) : 1/100 ≤ clampCents x ∧ isCents (clampCents x) :=
  ⟨clampCents_ge x, clampCents_cents x⟩

set_option maxRecDepth 8000 in
/-- C5 counterexample: `calculateCostFromUnitPrice` can return a cost
strictly above `GLOBAL_MAX_INGREDIENT_COST` (10 kg at $8/kg gives $80), so
the claimed upper bound of 60 on every return path is false. -/
theorem c5_counterexample :
    calculateCostFromUnitPrice [] 10 "kg" 8 "x" "kg" = 80 ∧
    ¬(calculateCostFromUnitPrice [] 10 "kg" 8 "x" "kg" ≤ GLOBAL_MAX_INGREDIENT_COST) :=
  ⟨by with_unfolding_all decide, by with_unfolding_all decide⟩

lemma unitPriceCostAux_ok (quantity unitPrice : ℚ) (ingredientName priceUnitLower : String)
    (o : Option ℚ) :
    1/100 ≤ unitPriceCostAux quantity unitPrice ingredientName priceUnitLower o ∧
      isCents (unitPriceCostAux quantity unitPrice ingredientName priceUnitLower o) := by
  cases o with
  | none =>
    simp only [unitPriceCostAux]
    cases h : (isUnitBasedIngredient ingredientName && priceUnitLower == "kg")
    · exact clampCents_ok _
    · exact clampCents_ok _
  | some qn => exact clampCents_ok _

lemma countedBranchAux_ok (quantity productPrice : ℚ) (ingredientName : String)
    (o : Option ℚ) :
    (1/100 ≤ countedBranchAux quantity productPrice ingredientName o ∧
      isCents (countedBranchAux quantity productPrice ingredientName o)) ∨
    countedBranchAux quantity productPrice ingredientName o =
      productPrice * jsMin ((⌈quantity⌉ : ℤ) : ℚ) 2 := by
  cases o
  · exact Or.inr rfl
  · exact Or.inl (clampCents_ok _)

lemma proportionalFallbackAux_ok (quantity : ℚ) (unitLower : String) (productPrice : ℚ)
    (o : Option StdSize) :
    (1/100 ≤ proportionalFallbackAux quantity unitLower productPrice o ∧
      isCents (proportionalFallbackAux quantity unitLower productPrice o)) ∨
    proportionalFallbackAux quantity unitLower productPrice o = productPrice := by
  cases o with
  | none => exact Or.inr rfl
  | some ss =>
    simp only [proportionalFallbackAux]
    cases h : recipeQtyInStandardUnit quantity unitLower ss.unit
    · exact Or.inr rfl
    · exact Or.inl (clampCents_ok _)

/-- C5 (amended): `calculateCostFromUnitPrice` always returns a value that
is ≥ 0.01 and a whole number of cents; `calculateProportionalCost` returns
such a value on every path except its two fallbacks — unknown per-item
weight (where it returns the raw product price times at most 2 packages)
and unknown package size or unrecognized unit (where it returns the raw
product price). Neither function caps the result at
`GLOBAL_MAX_INGREDIENT_COST`; that cap is applied by the caller in
`runRecipePriceCalculation`. -/
theorem c5_cost_rounding_amended (cache : EquivCache) (q : ℚ) (unit : String)
    (price : ℚ) (name priceUnit : String) :
    (1/100 ≤ calculateCostFromUnitPrice cache q unit price name priceUnit ∧
      isCents (calculateCostFromUnitPrice cache q unit price name priceUnit)) ∧
    ((1/100 ≤ calculateProportionalCost cache q unit price name ∧
        isCents (calculateProportionalCost cache q unit price name)) ∨
      calculateProportionalCost cache q unit price name =
        price * jsMin ((⌈q⌉ : ℤ) : ℚ) 2 ∨
      calculateProportionalCost cache q unit price name = price) := by
  constructor
  · unfold calculateCostFromUnitPrice
    cases h1 : (jsToLowerStr priceUnit == "unité" || jsToLowerStr priceUnit == "")
    · exact unitPriceCostAux_ok q price name (jsToLowerStr priceUnit) _
    · exact clampCents_ok _
  · unfold calculateProportionalCost
    cases h1 : (!isWeightOrVolumeUnit (toLowerTrim unit) &&
        (isUnitBasedIngredient name || countingUnits.contains (toLowerTrim unit)))
    · rcases proportionalFallbackAux_ok q (toLowerTrim unit) price
          (resolvedStandardSize name (isWeightOrVolumeUnit (toLowerTrim unit))
            (toLowerTrim unit)) with h | h
      · exact Or.inl h
      · exact Or.inr (Or.inr h)
    · rcases countedBranchAux_ok q price name (getUnitWeightInGrams cache name) with h | h
      · exact Or.inl h
      · exact Or.inr (Or.inl h)

/-- Whether a unified-price lookup result is usable by `findBestPrice`
(source line 1115): the match exists and its unit price is positive. -/
def usableUnifiedPriceAux : Option UnifiedMatch → Bool
  | some um => decide (0 < um.unitPrice)
  | none => false

/-- Whether `findBestPrice` can use the unified catalog for this
ingredient at this store. -/
def usableUnifiedPrice (ingredientName : String) (storeData : CachedStoreData) : Bool :=
  usableUnifiedPriceAux (findUnifiedPrice ingredientName storeData)

lemma bestPromoScan_price_le (name : String) (cap : ℚ) :
    ∀ (l : List PromoEntry) (acc : Option (ℚ × ℚ × String)),
      (∀ x, acc = some x → x.1 ≤ cap) →
      ∀ y, bestPromoScan name cap l acc = some y → y.1 ≤ cap := by
  intro l
  induction l with
  | nil => intro acc hacc y hy; exact hacc y hy
  | cons p rest ih =>
    intro acc hacc y hy
    unfold bestPromoScan at hy
    by_cases hp : p.promoPrice > cap
    · rw [if_pos hp] at hy
      exact ih acc hacc y hy
    · rw [if_neg hp] at hy
      by_cases hs : (1 : ℚ)/2 ≤ scorePromoMatch name p.productName
      · rw [if_pos hs] at hy
        cases acc with
        | none =>
          refine ih _ ?_ y hy
          intro x hx
          cases hx
          exact le_of_not_lt hp
        | some b =>
          split at hy
          · refine ih _ ?_ y hy
            intro x hx
            cases hx
            exact le_of_not_lt hp
          · rename_i bp bs bn heq
            split at hy
            · refine ih _ ?_ y hy
              intro x hx
              cases hx
              exact le_of_not_lt hp
            · injection heq with heq2
              subst heq2
              exact ih _ hacc y hy
      · rw [if_neg hs] at hy
        exact ih acc hacc y hy

lemma bestRefScan_price_le (name : String) (cap : ℚ) :
    ∀ (l : List RefEntry) (acc : Option (ℚ × ℚ)),
      (∀ x, acc = some x → x.1 ≤ cap) →
      ∀ y, bestRefScan name cap l acc = some y → y.1 ≤ cap := by
  intro l
  induction l with
  | nil => intro acc hacc y hy; exact hacc y hy
  | cons p rest ih =>
    intro acc hacc y hy
    unfold bestRefScan at hy
    by_cases hp : p.price > cap
    · rw [if_pos hp] at hy
      exact ih acc hacc y hy
    · rw [if_neg hp] at hy
      by_cases hs : (1 : ℚ)/2 ≤ scorePromoMatch name p.productName
      · rw [if_pos hs] at hy
        cases acc with
        | none =>
          refine ih _ ?_ y hy
          intro x hx
          cases hx
          exact le_of_not_lt hp
        | some b =>
          split at hy
          · refine ih _ ?_ y hy
            intro x hx
            cases hx
            exact le_of_not_lt hp
          · rename_i bp bs heq
            split at hy
            · refine ih _ ?_ y hy
              intro x hx
              cases hx
              exact le_of_not_lt hp
            · injection heq with heq2
              subst heq2
              exact ih _ hacc y hy
      · rw [if_neg hs] at hy
        exact ih acc hacc y hy

lemma findBestPriceAfterUnified_le (name : String) (cat : Option String)
    (sd : CachedStoreData) (cap : ℚ) :
    (findBestPriceAfterUnified name cat sd cap).price ≤ cap := by
  unfold findBestPriceAfterUnified
  cases hp : bestPromoScan name cap sd.promos none with
  | some b =>
    obtain ⟨price, score, pname⟩ := b
    exact bestPromoScan_price_le name cap sd.promos none (by intro x hx; cases hx) _ hp
  | none =>
    cases hr : bestRefScan name cap sd.refs none with
    | some b =>
      obtain ⟨price, score⟩ := b
      exact bestRefScan_price_le name cap sd.refs none (by intro x hx; cases hx) _ hr
    | none => exact jsMin_le_right _ _

lemma findBestPriceAfterUnified_source (name : String) (cat : Option String)
    (sd : CachedStoreData) (cap : ℚ) :
    (findBestPriceAfterUnified name cat sd cap).source = PriceSource.estimate ↔
      (bestPromoScan name cap sd.promos none = none ∧
        bestRefScan name cap sd.refs none = none) := by
  unfold findBestPriceAfterUnified
  cases hp : bestPromoScan name cap sd.promos none with
  | some b =>
    obtain ⟨price, score, pname⟩ := b
    simp
  | none =>
    cases hr : bestRefScan name cap sd.refs none with
    | some b =>
      obtain ⟨price, score⟩ := b
      simp
    | none => simp

lemma findBestPriceAux_spec (name : String) (cat : Option String)
    (sd : CachedStoreData) (cap : ℚ) (o : Option UnifiedMatch) :
    (findBestPriceAux name cat sd cap o).price ≤ cap ∧
    ((findBestPriceAux name cat sd cap o).source = PriceSource.estimate ↔
      (usableUnifiedPriceAux o = false ∧
        bestPromoScan name cap sd.promos none = none ∧
        bestRefScan name cap sd.refs none = none)) := by
  cases o with
  | some um =>
    simp only [findBestPriceAux, usableUnifiedPriceAux]
    by_cases hpos : 0 < um.unitPrice
    · rw [if_pos hpos]
      constructor
      · exact jsMin_le_right _ _
      · simp [hpos]
    · rw [if_neg hpos]
      constructor
      · exact findBestPriceAfterUnified_le name cat sd _
      · rw [findBestPriceAfterUnified_source]
        simp [hpos]
  | none =>
    simp only [findBestPriceAux, usableUnifiedPriceAux]
    constructor
    · exact findBestPriceAfterUnified_le name cat sd _
    · rw [findBestPriceAfterUnified_source]
      simp

/-- C3: `findBestPrice` is a total function (it always returns a
`PricingResult`); its price never exceeds the ingredient-specific cap
returned by `getIngredientPriceCap` (the global default cap of 50 when no
cap-table entry matches the name); and its source is the category estimate
exactly when no usable unified price, no acceptable promotion and no
acceptable reference price is found. -/
theorem c3_price_cap_and_estimate_fallback (name : String) (cat : Option String)
    (sd : CachedStoreData) :
    (findBestPrice name cat sd).price ≤ getIngredientPriceCap name ∧
    ((findBestPrice name cat sd).source = PriceSource.estimate ↔
      (usableUnifiedPrice name sd = false ∧
        bestPromoScan name (getIngredientPriceCap name) sd.promos none = none ∧
        bestRefScan name (getIngredientPriceCap name) sd.refs none = none)) :=
  findBestPriceAux_spec name cat sd (getIngredientPriceCap name)
    (findUnifiedPrice name sd)

lemma prefixCL_self : ∀ l : List Char, prefixCL l l = true
  | [] => rfl
  | a :: xs => by simp [prefixCL, prefixCL_self xs]

lemma matchesWholeWord_self (s : String) : matchesWholeWord s s = true := by
  unfold matchesWholeWord
  rw [List.any_eq_true]
  refine ⟨0, List.mem_range.mpr (Nat.succ_pos _), ?_⟩
  have h : s.data[s.length]? = none := List.getElem?_eq_none (le_refl _)
  simp [prefixCL_self, boundaryOk, h]

/-- C9 counterexample: "savon" is on the non-food denylist, so matching it
against itself scores 0, not 1 — the claimed identity `score(x, x) = 1.0`
fails for denylisted names. -/
theorem c9_counterexample :
    scorePromoMatch "savon" "savon" = 0 ∧ (0 : ℚ) ≠ 1 :=
  ⟨by with_unfolding_all decide, by norm_num⟩

/-- C9 (amended): for every string whose normalized form contains no
denylisted keyword, matching the string against itself scores exactly 1
(the whole-word occurrence of the full name short-circuits to 1.0). -/
theorem c9_score_self_amended (x : String)
    (h : promoDenylisted (normalizeText x) = false) :
    scorePromoMatch x x = 1 := by
  unfold scorePromoMatch
  rw [h]
  have hf : fullNameWordHit (wordsMin2 (normalizeText x)) (normalizeText x)
      (normalizeText x) = true := by
    unfold fullNameWordHit
    rw [matchesWholeWord_self]
    simp
  rw [hf]
  simp

/-- C9 witness: the amended self-match identity at the concrete
non-denylisted name "tomate". -/
theorem c9_witness :
    promoDenylisted (normalizeText "tomate") = false ∧ scorePromoMatch "tomate" "tomate" = 1 :=
  ⟨by with_unfolding_all decide, c9_score_self_amended "tomate" (by with_unfolding_all decide)⟩

/-- The count of partial matches exactly as C7's sentence defines them: an
ingredient word of length ≥ 4 that is a prefix or suffix of some candidate
word (with no exclusion of exact matches and each match counting 1). This
definition follows the claim's words, for comparison with the source's
`fragMatchCount`-based score. -/
def specFragCount (ingredientWords promoWords : List String) : Nat :=
  ingredientWords.countP (fun iw =>
    (promoWords.any (fun pw => startsWithStr pw iw || endsWithStr pw iw)) &&
    decide (4 ≤ iw.length))

/-- The pre-floor score formula exactly as C7 states it:
`exactWordMatches / n + 0.3 × (partialMatches / n)` with each partial match
counting 1. This definition follows the claim's words, for comparison with
`scorePromoMatch`. -/
def scorePromoMatchSpecFormula (ingredientName promoName : String) : ℚ :=
  (exactWordMatchCount (wordsMin2 (normalizeText ingredientName))
      (wordsMin2 (normalizeText promoName)) : ℚ) /
    ((wordsMin2 (normalizeText ingredientName)).length : ℚ) +
  3/10 * ((specFragCount (wordsMin2 (normalizeText ingredientName))
      (wordsMin2 (normalizeText promoName)) : ℚ) /
    ((wordsMin2 (normalizeText ingredientName)).length : ℚ))

/-- C7 counterexample: for "poulet" against "poulets" (one partial match,
no exact match, no denylist hit, no whole-word full-name hit, no keyword
floor) the source scores 0.15 = 0.3 × 0.5, not the claimed
0.3 × (1/1) = 0.3: each partial match contributes only 0.5. -/
theorem c7_counterexample :
    scorePromoMatch "poulet" "poulets" = 3/20 ∧
    scorePromoMatchSpecFormula "poulet" "poulets" = 3/10 ∧
    scorePromoMatch "poulet" "poulets" ≠ scorePromoMatchSpecFormula "poulet" "poulets" :=
  ⟨by with_unfolding_all decide, by with_unfolding_all decide, by with_unfolding_all decide⟩

/-- C7 (amended): when the candidate is not denylisted, no whole-word match
of the full ingredient name occurs, and the keyword-expansion floor does
not apply, the score equals
`exactWordMatches / n + 0.3 × ((partialMatches × 0.5) / n)` — each partial
match (an ingredient word of length ≥ 4, not an exact match, that is a
prefix or suffix of some candidate word) contributes 0.5, not 1. Words are
the tokens of length ≥ 2 of the normalized strings. -/
theorem c7_prefloor_score_amended (ingredientName promoName : String)
    (h1 : promoDenylisted (normalizeText promoName) = false)
    (h2 : fullNameWordHit (wordsMin2 (normalizeText promoName)) (normalizeText promoName)
      (normalizeText ingredientName) = false)
    (h3 : keywordFloorHit ingredientName (wordsMin2 (normalizeText promoName))
      (normalizeText promoName) = false) :
    scorePromoMatch ingredientName promoName =
      (exactWordMatchCount (wordsMin2 (normalizeText ingredientName))
          (wordsMin2 (normalizeText promoName)) : ℚ) /
        ((wordsMin2 (normalizeText ingredientName)).length : ℚ) +
      3/10 * (((fragMatchCount (wordsMin2 (normalizeText ingredientName))
          (wordsMin2 (normalizeText promoName)) : ℚ) * (1/2)) /
        ((wordsMin2 (normalizeText ingredientName)).length : ℚ)) := by
  unfold scorePromoMatch
  rw [h1, h2, h3]
  simp only [Bool.false_eq_true, if_false]
  by_cases hn : (wordsMin2 (normalizeText ingredientName)).length = 0
  · have hl : wordsMin2 (normalizeText ingredientName) = [] :=
      List.length_eq_zero.mp hn
    simp [hl, exactWordMatchCount, fragMatchCount]
  · have hb : ((wordsMin2 (normalizeText ingredientName)).length == 0) = false := by
      simpa using hn
    rw [hb]
    simp only [Bool.false_eq_true, if_false]
    unfold baseScoreOf
    ring

/-- C7 witness: the amended pre-floor formula at the concrete pair
("poulet", "poulets"), where the score is 0 / 1 + 0.3 × ((1 × 0.5) / 1). -/
theorem c7_witness :
    promoDenylisted (normalizeText "poulets") = false ∧
    fullNameWordHit (wordsMin2 (normalizeText "poulets")) (normalizeText "poulets")
      (normalizeText "poulet") = false ∧
    keywordFloorHit "poulet" (wordsMin2 (normalizeText "poulets"))
      (normalizeText "poulets") = false ∧
    scorePromoMatch "poulet" "poulets" =
      (exactWordMatchCount (wordsMin2 (normalizeText "poulet"))
          (wordsMin2 (normalizeText "poulets")) : ℚ) /
        ((wordsMin2 (normalizeText "poulet")).length : ℚ) +
      3/10 * (((fragMatchCount (wordsMin2 (normalizeText "poulet"))
          (wordsMin2 (normalizeText "poulets")) : ℚ) * (1/2)) /
        ((wordsMin2 (normalizeText "poulet")).length : ℚ)) :=
  ⟨by with_unfolding_all decide, by with_unfolding_all decide,
    by with_unfolding_all decide,
    c7_prefloor_score_amended "poulet" "poulets" (by with_unfolding_all decide)
      (by with_unfolding_all decide) (by with_unfolding_all decide)⟩

lemma priceIngredients_missing (cache : EquivCache) (ingredients : List IngredientRec)
    (storeData : CachedStoreData) (l : List AggIng) :
    (priceIngredients cache ingredients storeData l).2.1 =
      l.countP (fun a => (ingredientById ingredients a.ingredientId).isNone) +
      (priceIngredients cache ingredients storeData l).2.2.countP
        (fun b => b.source == PriceSource.estimate) := by
  induction l with
  | nil => rfl
  | cons ri rest ih =>
    simp only [priceIngredients]
    cases h : ingredientById ingredients ri.ingredientId with
    | none =>
      simp [priceIngredientStep, List.countP_cons, h]
      omega
    | some ing =>
      by_cases hs : ((findBestPrice ing.name ing.category storeData).source ==
          PriceSource.estimate) = true
      · simp [priceIngredientStep, List.countP_cons, h, hs]
        omega
      · rw [Bool.not_eq_true] at hs
        simp [priceIngredientStep, List.countP_cons, h, hs]
        omega

/-- C1 counterexample: a recipe line whose ingredient id resolves to no
known ingredient also increments the stored missing count, so a row can
have zero estimate-sourced ingredients and a positive total and still have
`isComplete = false` — the claimed "iff" fails as stated. -/
theorem c1_counterexample :
    ((processRecipeStore [] [⟨"i-eau", "eau", none⟩]
        [⟨"r1", "i-eau", some 1, some "l"⟩, ⟨"r1", "ghost", some 1, some "g"⟩]
        ⟨[⟨some "eau", some 2, none, some 2, 1, "l"⟩], [], []⟩).breakdown.countP
      (fun b => b.source == PriceSource.estimate) = 0) ∧
    (0 < (processRecipeStore [] [⟨"i-eau", "eau", none⟩]
        [⟨"r1", "i-eau", some 1, some "l"⟩, ⟨"r1", "ghost", some 1, some "g"⟩]
        ⟨[⟨some "eau", some 2, none, some 2, 1, "l"⟩], [], []⟩).totalCost) ∧
    (processRecipeStore [] [⟨"i-eau", "eau", none⟩]
        [⟨"r1", "i-eau", some 1, some "l"⟩, ⟨"r1", "ghost", some 1, some "g"⟩]
        ⟨[⟨some "eau", some 2, none, some 2, 1, "l"⟩], [], []⟩).isComplete = false :=
  ⟨by with_unfolding_all decide, by with_unfolding_all decide,
    by with_unfolding_all decide⟩

/-- C1 (amended): the stored `isComplete` flag is true iff zero ingredients
fell back to a category estimate AND every aggregated recipe line's
ingredient id resolves to a known ingredient AND the stored total cost is
strictly positive (the stored missing count is the sum of the unresolvable
lines and the estimate-priced ingredients); in particular any
estimate-sourced ingredient still forces `isComplete = false`. -/
theorem c1_isComplete_amended (cache : EquivCache) (ingredients : List IngredientRec)
    (recipeIngs : List RecipeIngredientRec) (storeData : CachedStoreData) :
    (processRecipeStore cache ingredients recipeIngs storeData).isComplete = true ↔
      ((processRecipeStore cache ingredients recipeIngs storeData).breakdown.countP
          (fun b => b.source == PriceSource.estimate) = 0 ∧
        (aggregateIngs recipeIngs).countP
          (fun a => (ingredientById ingredients a.ingredientId).isNone) = 0 ∧
        0 < (processRecipeStore cache ingredients recipeIngs storeData).totalCost) := by
  have hm := priceIngredients_missing cache ingredients storeData (aggregateIngs recipeIngs)
  simp only [processRecipeStore]
  rw [Bool.and_eq_true, decide_eq_true_eq, decide_eq_true_eq]
  constructor
  · rintro ⟨h1, h2⟩
    refine ⟨by omega, by omega, h2⟩
  · rintro ⟨h1, h2, h3⟩
    exact ⟨by omega, h3⟩

lemma processRecipesForStore_storeId (cache : EquivCache) (input : RunInput)
    (perr : String → String → Option String) (store : StoreRec) :
    ∀ (l : List RecipeRec) (row : RecipeStorePriceRow),
      row ∈ (processRecipesForStore cache input perr store l).1 → row.storeId = store.id := by
  intro l
  induction l with
  | nil => intro row h; cases h
  | cons r rest ih =>
    intro row h
    unfold processRecipesForStore at h
    cases hp : perr r.id store.id with
    | some m =>
      rw [hp] at h
      exact ih row h
    | none =>
      rw [hp] at h
      rcases List.mem_cons.mp h with h1 | h1
      · rw [h1]
      · exact ih row h1

lemma runStores_storeId (cache : EquivCache) (input : RunInput)
    (perr : String → String → Option String) :
    ∀ (l : List StoreRec) (row : RecipeStorePriceRow),
      row ∈ (runStores cache input perr l).1 → ∃ s ∈ l, row.storeId = s.id := by
  intro l
  induction l with
  | nil => intro row h; cases h
  | cons s rest ih =>
    intro row h
    unfold runStores at h
    rcases List.mem_append.mp h with h1 | h1
    · exact ⟨s, List.mem_cons_self s rest,
        processRecipesForStore_storeId cache input perr s input.recipes row h1⟩
    · obtain ⟨s2, hs2, he⟩ := ih row h1
      exact ⟨s2, List.mem_cons_of_mem s hs2, he⟩

/-- C2: every `RecipeStorePrice` row produced by a calculation run carries
the id of a store that survived the preventive filter, so no output row —
hence no per-ingredient best deal inside a row's breakdown and no rollup
minimum computed over the run's rows — ever references the excluded Adonis
or Provigo stores, whatever the inputs (even when such a store's price
would be the global minimum). -/
theorem c2_no_disallowed_store (st : RunState) (now : Nat) (cache : EquivCache)
    (load : Except String RunInput) (perr : String → String → Option String) :
    ((runRecipePriceCalculation st now cache load perr).2.2.all (fun row =>
      !(row.storeId == STORE_IDS_ADONIS) && !(row.storeId == STORE_IDS_PROVIGO))) = true := by
  unfold runRecipePriceCalculation
  by_cases hcalc : (autoResetState st now).isCalculating = true
  · rw [if_pos hcalc]
    rfl
  · rw [if_neg hcalc]
    cases load with
    | error m => rfl
    | ok input =>
      rw [List.all_eq_true]
      intro row hrow
      obtain ⟨s, hs, he⟩ := runStores_storeId cache input perr (filteredStores input) row hrow
      have hf := (List.mem_filter.mp hs).2
      rw [he]
      exact hf

/-- C4: invoking the run while a previous run holds the lock (and its start
time is within the stuck timeout) returns immediately with success false
and the single error "Calculation already in progress", writes no rows, and
leaves all state — the lock included — unchanged. -/
theorem c4_reject_in_progress (st : RunState) (now t : Nat) (cache : EquivCache)
    (load : Except String RunInput) (perr : String → String → Option String)
    (h1 : st.isCalculating = true) (h2 : st.calculationStartTime = some t)
    (h3 : now - t ≤ MAX_CALCULATION_TIME_MS) :
    runRecipePriceCalculation st now cache load perr =
      (st, ⟨false, 0, 0, ["Calculation already in progress"]⟩, []) := by
  have hst1 : autoResetState st now = st := by
    unfold autoResetState
    rw [h2]
    have hnot : ¬ (MAX_CALCULATION_TIME_MS < now - t) := not_lt.mpr h3
    simp [hnot]
  unfold runRecipePriceCalculation
  rw [hst1, h1]
  rfl

/-- C4 witness: the rejection at the concrete state (lock held, started at
5 ms, now 6 ms — well within the 10-minute timeout). -/
theorem c4_witness :
    (⟨true, some 5⟩ : RunState).isCalculating = true ∧
    (⟨true, some 5⟩ : RunState).calculationStartTime = some 5 ∧
    6 - 5 ≤ MAX_CALCULATION_TIME_MS ∧
    runRecipePriceCalculation ⟨true, some 5⟩ 6 [] (Except.error "db down") (fun _ _ => none) =
      (⟨true, some 5⟩, ⟨false, 0, 0, ["Calculation already in progress"]⟩, []) :=
  ⟨rfl, rfl, by decide,
    c4_reject_in_progress ⟨true, some 5⟩ 6 5 [] (Except.error "db down") (fun _ _ => none)
      rfl rfl (by decide)⟩

/-- Whether a run invocation is rejected: the lock is still held after the
stuck-timeout auto-reset. -/
def rejectedRun (st : RunState) (now : Nat) : Bool := (autoResetState st now).isCalculating

/-- C8: every accepted run — normal or aborted by a fatal error outside the
per-pair loop, such as a failure to load the base catalogs — ends with the
lock released (`isCalculating` false and the start timestamp cleared) and
returns a summary; the summary has success false carrying the fatal message
on the fatal path, and success true on the normal path. -/
theorem c8_lock_released (st : RunState) (now : Nat) (cache : EquivCache)
    (load : Except String RunInput) (perr : String → String → Option String)
    (h : rejectedRun st now = false) :
    (runRecipePriceCalculation st now cache load perr).1 =
      (⟨false, none⟩ : RunState) ∧
    (∀ m, load = Except.error m →
      (runRecipePriceCalculation st now cache load perr).2.1.success = false ∧
      (runRecipePriceCalculation st now cache load perr).2.1.errors = [m]) ∧
    (∀ input, load = Except.ok input →
      (runRecipePriceCalculation st now cache load perr).2.1.success = true) := by
  unfold rejectedRun at h
  unfold runRecipePriceCalculation
  rw [h]
  cases load with
  | error m =>
    refine ⟨rfl, ?_, ?_⟩
    · intro m2 hm
      cases hm
      exact ⟨rfl, rfl⟩
    · intro input hin
      cases hin
  | ok input =>
    refine ⟨rfl, ?_, ?_⟩
    · intro m2 hm
      cases hm
    · intro input2 hin
      cases hin
      rfl

/-- C8 witness: a fatal base-catalog load failure at the concrete idle
state: the lock ends released and the summary is success false with the
fatal message. -/
theorem c8_witness :
    rejectedRun ⟨false, none⟩ 0 = false ∧
    (runRecipePriceCalculation ⟨false, none⟩ 0 [] (Except.error "db down")
      (fun _ _ => none)).1 = (⟨false, none⟩ : RunState) ∧
    (runRecipePriceCalculation ⟨false, none⟩ 0 [] (Except.error "db down")
      (fun _ _ => none)).2.1.success = false :=
  ⟨rfl, (c8_lock_released ⟨false, none⟩ 0 [] (Except.error "db down") (fun _ _ => none) rfl).1,
    ((c8_lock_released ⟨false, none⟩ 0 [] (Except.error "db down") (fun _ _ => none) rfl).2.1
      "db down" rfl).1⟩

lemma processRecipesForStore_sp (cache : EquivCache) (input : RunInput)
    (perr : String → String → Option String) (store : StoreRec) :
    ∀ l : List RecipeRec,
      (processRecipesForStore cache input perr store l).2.2 =
        l.countP (fun r => (perr r.id store.id).isNone) := by
  intro l
  induction l with
  | nil => rfl
  | cons r rest ih =>
    simp only [processRecipesForStore]
    cases hp : perr r.id store.id with
    | some m => simp [List.countP_cons, hp, ih]
    | none => simp [List.countP_cons, hp, ih]

lemma runStores_sp (cache : EquivCache) (input : RunInput)
    (perr : String → String → Option String) :
    ∀ l : List StoreRec,
      (runStores cache input perr l).2.2.1 =
        (l.map (fun s => input.recipes.countP (fun r => (perr r.id s.id).isNone))).sum := by
  intro l
  induction l with
  | nil => rfl
  | cons s rest ih =>
    simp only [runStores, List.map_cons, List.sum_cons]
    rw [processRecipesForStore_sp, ih]

lemma runStores_rp (cache : EquivCache) (input : RunInput)
    (perr : String → String → Option String) :
    ∀ l : List StoreRec,
      (runStores cache input perr l).2.2.2 =
        (if l = [] then 0 else input.recipes.length) := by
  intro l
  cases l with
  | nil => rfl
  | cons s rest => simp [runStores]

/-- C10: in the summary of an accepted, non-fatal run, `storesProcessed`
counts the (recipe, store) pairs processed without a per-pair error — not
the stores — and `recipesProcessed` equals the number of loaded recipes
whenever at least one non-excluded store was iterated, and stays 0 when the
filtered store list is empty. -/
theorem c10_processed_counters (st : RunState) (now : Nat) (cache : EquivCache)
    (input : RunInput) (perr : String → String → Option String)
    (h : rejectedRun st now = false) :
    (runRecipePriceCalculation st now cache (Except.ok input) perr).2.1.storesProcessed =
      ((filteredStores input).map
        (fun s => input.recipes.countP (fun r => (perr r.id s.id).isNone))).sum ∧
    (runRecipePriceCalculation st now cache (Except.ok input) perr).2.1.recipesProcessed =
      (if filteredStores input = [] then 0 else input.recipes.length) := by
  unfold rejectedRun at h
  unfold runRecipePriceCalculation
  rw [h]
  exact ⟨runStores_sp cache input perr (filteredStores input),
    runStores_rp cache input perr (filteredStores input)⟩

/-- One store, two recipes, the second failing its pair: the summary must
count 1 processed pair and 2 recipes. -/
def c10WitnessInput : RunInput where
  recipes := [⟨"r1", "Recipe 1"⟩, ⟨"r2", "Recipe 2"⟩]
  stores := [⟨"iga", "IGA"⟩]
  ingredients := []
  recipeIngredients := []
  storeData := fun _ => ⟨[], [], []⟩

def c10WitnessPerr : String → String → Option String :=
  fun rid _ => if rid == "r2" then some "boom" else none

/-- C10 witness: at the concrete input, the accepted run reports
storesProcessed = 1 (one pair errored out of two) and
recipesProcessed = 2. -/
theorem c10_witness :
    rejectedRun ⟨false, none⟩ 0 = false ∧
    (runRecipePriceCalculation ⟨false, none⟩ 0 [] (Except.ok c10WitnessInput)
      c10WitnessPerr).2.1.storesProcessed = 1 ∧
    (runRecipePriceCalculation ⟨false, none⟩ 0 [] (Except.ok c10WitnessInput)
      c10WitnessPerr).2.1.recipesProcessed = 2 :=
  ⟨rfl,
    ((c10_processed_counters ⟨false, none⟩ 0 [] c10WitnessInput c10WitnessPerr rfl).1).trans
      (by with_unfolding_all decide),
    ((c10_processed_counters ⟨false, none⟩ 0 [] c10WitnessInput c10WitnessPerr rfl).2).trans
      (by with_unfolding_all decide)⟩

/-- C6: evaluating the preview endpoint of src/server.ts on the bundled
mock data shows the claim's expected behaviour is violated by the code:
every ingredient of every recipe receives the "no price available" error
and no best deal — including ground beef, although the mock price table
holds 4 entries for `ing_boeuf` at stores other than Adonis and Provigo.
The endpoint's `allowedStoreIds` are the numbers 1-4 while the price rows
carry string store ids, and the filter reads `ingredient.id`, a property
the mock recipe rows do not have, so the availability filter never
matches. -/
theorem c6_mock_data_all_errored :
    ((serverCalculate mockRecipes mockPrices).all (fun r =>
      r.ingredients.all (fun i => i.errored && i.bestDeal.isNone))) = true ∧
    mockPrices.countP (fun p => jsEq p.ingredientId (JsVal.jstr "ing_boeuf") &&
      !(jsEq p.storeId (JsVal.jstr STORE_IDS_ADONIS)) &&
      !(jsEq p.storeId (JsVal.jstr STORE_IDS_PROVIGO))) = 4 :=
  ⟨by with_unfolding_all decide, by with_unfolding_all decide⟩
